import Mathlib

/-!
Shallow embedding of the FWaaS v2 iptables driver
(`neutron_fwaas/services/firewall/drivers/linux/iptables_fwaas_v2.py`),
together with theorems settling the specification claims about it.

The driver itself is embedded from the source file.  The collaborators it
drives (the per-namespace filter-table handle `iptables_manager`, the external
process runner `linux_utils.execute`, and the connection-tracking backend) are
not part of this repository; they are modelled from the specification's
interface description (sections 4.3, 6 and the conntrack backend contract) and
carry a `Modelled from the spec:` doc comment.
-/

namespace Fwaas

/-- Low-level failures raised by the filter-table / process layer.  The
driver's `except (LookupError, RuntimeError)` clauses catch exactly these. -/
inductive LowErr where
  | lookupError
  | runtimeError
deriving DecidableEq, Repr

/-- Errors surfaced to callers of the public driver operations, following the
spec's error taxonomy (section 7): validation errors, not-found errors, and
the single generic driver-internal error
(`fw_ext.FirewallInternalDriverError(driver=...)`). -/
inductive FwErr where
  | validationError
  | notFoundError
  | firewallInternalDriverError (driver : String)
deriving DecidableEq, Repr

deriving instance DecidableEq for Except

/-- `FWAAS_DRIVER_NAME = 'Fwaas iptables driver'`. -/
def FWAAS_DRIVER_NAME : String := "Fwaas iptables driver"

/-- `FWAAS_DEFAULT_CHAIN = 'fwaas-default-policy'`. -/
def FWAAS_DEFAULT_CHAIN : String := "fwaas-default-policy"

/-- The two traffic directions.  The source uses the strings
`'ingress'` / `'egress'`; the driver only ever indexes its direction
dictionaries with these two values, so they are embedded as an enumeration. -/
inductive Dir where
  | ingress
  | egress
deriving DecidableEq, Repr

/-- The two IP versions.  The source uses the strings `'ipv4'` / `'ipv6'`. -/
inductive IpVer where
  | v4
  | v6
deriving DecidableEq, Repr

/-- `CHAIN_NAME_PREFIX = {'ingress': 'i', 'egress': 'o'}`. -/
def CHAIN_NAME_PREF : Dir → String
  | .ingress => "i"
  | .egress => "o"

/-- `IPTABLES_DIR = {'ingress': '-o', 'egress': '-i'}`. -/
def IPTABLES_DIR : Dir → String
  | .ingress => "-o"
  | .egress => "-i"

/-- `IP_VER_TAG = {'ipv4': 'v4', 'ipv6': 'v6'}`. -/
def IP_VER_TAG : IpVer → String
  | .v4 => "v4"
  | .v6 => "v6"

/-- `INTERNAL_DEV_PREFIX = 'qr-'`. -/
def INTERNAL_DEV_PREF : String := "qr-"

/-- `SNAT_INT_DEV_PREFIX = 'sg-'`. -/
def SNAT_INT_DEV_PREF : String := "sg-"

/-- `ROUTER_2_FIP_DEV_PREFIX = 'rfp-'`. -/
def ROUTER_2_FIP_DEV_PREF : String := "rfp-"

/-- `MAX_INTF_NAME_LEN = 14`. -/
def MAX_INTF_NAME_LEN : Nat := 14

/-- Modelled from the spec: `iptables_manager.binary_name` of the external
filter-table module — the wrapping token prepended (with a dash) to every
wrapped chain name in jump rules.  A fixed 16-character process name. -/
def binary_name : String := "neutron-l3-agent"

/-- A firewall rule dictionary, with exactly the keys the driver reads.
Optional string fields model Python's `rule.get(key)` returning `None`. -/
structure FwRule where
  id : String
  enabled : Bool
  action : Option String
  ip_version : Nat
  protocol : Option String
  source_port : Option String
  destination_port : Option String
  source_ip_address : Option String
  destination_ip_address : Option String
deriving DecidableEq, BEq, Repr

/-- A firewall-group dictionary, with exactly the keys the driver reads. -/
structure Firewall where
  id : String
  tenant_id : String
  admin_state_up : Bool
  ingress_rule_list : List FwRule
  egress_rule_list : List FwRule
deriving DecidableEq, BEq, Repr

/-- Python truthiness of an optional string (`None` and `''` are falsy). -/
def truthy : Option String → Bool
  | none => false
  | some s => !s.isEmpty

/-- Modelled from the spec: one filter table of the external filter-table
handle (section 6): a queryable set of chain names plus the ordered list of
`(chain, ruleSpec)` entries added to it. -/
structure IptTable where
  chains : List String
  rules : List (String × String)
deriving DecidableEq, BEq, Repr, Inhabited

/-- Modelled from the spec: `addChain(name)` of the filter-table handle;
adding an already-present chain is a no-op on the chain set. -/
def IptTable.add_chain (t : IptTable) (name : String) : IptTable :=
  if name ∈ t.chains then t else { t with chains := t.chains ++ [name] }

/-- Modelled from the spec: `addRule(chainName, ruleSpec)` of the filter-table
handle; appends the rule at the end of the chain, and fails with a lookup
error when the chain does not exist. -/
def IptTable.add_rule (t : IptTable) (chain rule : String) :
    Except LowErr IptTable :=
  if chain ∈ t.chains then
    .ok { t with rules := t.rules ++ [(chain, rule)] }
  else
    .error .lookupError

/-- Bool test: does `needle` occur contiguously inside `hay`? -/
def containsSub (needle hay : List Char) : Bool :=
  hay.tails.any (fun t => needle.isPrefixOf t)

/-- The jump snippet `'-j %s-%s' % (binary_name, chain)` that identifies a
jump into a wrapped chain. -/
def jumpSnippet (chain : String) : String :=
  "-j " ++ binary_name ++ "-" ++ chain

/-- Modelled from the spec: `removeChain(name)` of the filter-table handle.
Removing an absent chain is a no-op; removing a present chain drops the chain,
every rule inside it, and every rule (in any chain) that jumps into it, so
that no chain is left attached to forwarding (spec section 4.5). -/
def IptTable.remove_chain (t : IptTable) (name : String) : IptTable :=
  if name ∈ t.chains then
    { chains := t.chains.filter (fun c => c ≠ name),
      rules := t.rules.filter
        (fun cr => cr.1 ≠ name ∧ ¬(containsSub (jumpSnippet name).data cr.2.data)) }
  else t

/-- The rule specs of one chain, in table order. -/
def IptTable.chainRules (t : IptTable) (chain : String) : List String :=
  (t.rules.filter (fun cr => cr.1 = chain)).map (fun cr => cr.2)

/-- Modelled from the spec: the per-namespace filter-table handle
(`iptables_manager.IptablesManager`): an IPv4 filter table, an IPv6 filter
table, and the namespace identifier used for conntrack invocations. -/
structure IptMgr where
  ipv4_filter : IptTable
  ipv6_filter : IptTable
  netns : String
deriving DecidableEq, BEq, Repr, Inhabited

/-- Select `ipt_mgr.ipv4['filter']` / `ipt_mgr.ipv6['filter']`. -/
def IptMgr.filterTable (m : IptMgr) : IpVer → IptTable
  | .v4 => m.ipv4_filter
  | .v6 => m.ipv6_filter

/-- Write back a mutated filter table. -/
def IptMgr.setTable (m : IptMgr) : IpVer → IptTable → IptMgr
  | .v4, t => { m with ipv4_filter := t }
  | .v6, t => { m with ipv6_filter := t }

/-- Modelled from the spec: the router description consumed by the
target resolver (`ri` in the source): distributed flag, the main iptables
manager, the optional SNAT-namespace manager, and the distributed
floating-ip port count. -/
structure RouterInfo where
  distributed : Bool
  iptables_manager : IptMgr
  snat_iptables_manager : Option IptMgr
  dist_fip_count : Nat
deriving DecidableEq, BEq, Repr, Inhabited

/-- Which manager field of a `RouterInfo` a resolved target aliases.  The
source returns the manager objects themselves (mutable references); the
embedding names the field instead so updates can be written back. -/
inductive MgrRef where
  | main
  | snat
deriving DecidableEq, BEq, Repr

/-- Dereference a manager field (`.snat` is only produced by the resolver
when the SNAT manager is present). -/
def RouterInfo.getMgr (ri : RouterInfo) : MgrRef → IptMgr
  | .main => ri.iptables_manager
  | .snat => ri.snat_iptables_manager.getD default

/-- Write back a mutated manager field. -/
def RouterInfo.setMgr (ri : RouterInfo) : MgrRef → IptMgr → RouterInfo
  | .main, m => { ri with iptables_manager := m }
  | .snat, m => { ri with snat_iptables_manager := some m }

/-- One entry of `apply_list`: `(ri, router_fw_ports)`. -/
def ApplyEntry := RouterInfo × List String
deriving instance DecidableEq, BEq, Repr, Inhabited for ApplyEntry

/-- The driver's only persistent state: `self.pre_firewall`, a single
process-memory slot initialised to `None` in `__init__`. -/
structure DriverState where
  pre_firewall : Option Firewall
deriving DecidableEq, BEq, Repr

/-- A conntrack command: the argv list passed to `linux_utils.execute`. -/
def Cmd := List String
deriving instance DecidableEq, BEq, Repr for Cmd

/-- `_get_intf_name`: interface name = prefix + port id, truncated to
`MAX_INTF_NAME_LEN`. -/
def _get_intf_name (ifPref port_id : String) : String :=
  (ifPref ++ port_id).take MAX_INTF_NAME_LEN

/-- `_get_chain_name(fwid, ver, direction)`:
direction tag + version tag + firewall-group id. -/
def _get_chain_name (fwid : String) (ver : IpVer) (d : Dir) : String :=
  CHAIN_NAME_PREF d ++ IP_VER_TAG ver ++ fwid

/-- `_drop_invalid_packets_rule`. -/
def _drop_invalid_packets_rule : String := "-m state --state INVALID -j DROP"

/-- `_allow_established_rule`. -/
def _allow_established_rule : String :=
  "-m state --state ESTABLISHED,RELATED -j ACCEPT"

/-- `FWAAS_TO_IPTABLE_ACTION_MAP` as a partial lookup; indexing the Python
dict with a missing key raises `KeyError` (a `LookupError`). -/
def FWAAS_TO_IPTABLE_ACTION_MAP : Option String → Option String
  | some "allow" => some "ACCEPT"
  | some "deny" => some "DROP"
  | some "reject" => some "REJECT"
  | _ => none

/-- `_action_arg(action)`. -/
def _action_arg (action : Option String) : String :=
  if truthy action then "-j " ++ action.getD "" else ""

/-- `_protocol_arg(protocol)`. -/
def _protocol_arg (protocol : Option String) : String :=
  if truthy protocol then "-p " ++ protocol.getD "" else ""

/-- `_port_arg(direction, protocol, port)`: emits a port matcher only when
the protocol is udp or tcp and the port field is set. -/
def _port_arg (d : String) (protocol : Option String) (port : Option String) :
    String :=
  if !((protocol == some "udp" || protocol == some "tcp") && truthy port) then
    ""
  else
    "--" ++ d ++ " " ++ port.getD ""

/-- `_ip_prefix_arg(direction, ip_prefix)`. -/
def _ip_prefix_arg (d : String) (ipPref : Option String) : String :=
  if truthy ipPref then "-" ++ d ++ " " ++ ipPref.getD "" else ""

/-- `_convert_fwaas_to_iptables_rule(rule)`: the action-map lookup raises
`KeyError` on an unknown/missing action; otherwise the six argument pieces
are joined with single spaces. -/
def _convert_fwaas_to_iptables_rule (rule : FwRule) : Except LowErr String :=
  match FWAAS_TO_IPTABLE_ACTION_MAP rule.action with
  | none => .error .lookupError
  | some action =>
    .ok (String.intercalate " "
      [_protocol_arg rule.protocol,
       _port_arg "dport" rule.protocol rule.destination_port,
       _port_arg "sport" rule.protocol rule.source_port,
       _ip_prefix_arg "s" rule.source_ip_address,
       _ip_prefix_arg "d" rule.destination_ip_address,
       _action_arg (some action)])

/-- The translated spec of a rule whose action is valid (the `.ok` payload of
`_convert_fwaas_to_iptables_rule`). -/
def convOk (rule : FwRule) : String :=
  String.intercalate " "
    [_protocol_arg rule.protocol,
     _port_arg "dport" rule.protocol rule.destination_port,
     _port_arg "sport" rule.protocol rule.source_port,
     _ip_prefix_arg "s" rule.source_ip_address,
     _ip_prefix_arg "d" rule.destination_ip_address,
     _action_arg (FWAAS_TO_IPTABLE_ACTION_MAP rule.action)]

/-- A rule's action is a key of `FWAAS_TO_IPTABLE_ACTION_MAP`. -/
def validAction (rule : FwRule) : Prop :=
  (FWAAS_TO_IPTABLE_ACTION_MAP rule.action).isSome

instance (rule : FwRule) : Decidable (validAction rule) := by
  unfold validAction; infer_instance

/-- `_get_conntrack_filter_from_rule(rule)`: the loop over
`[['-p','protocol'], ['-f','ip_version'], ['--dport','destination_port'],
['--sport','source_port']]`, unrolled; each key contributes its pair only
when set (truthy) on the rule, `ip_version` rendered as `'ipv' + str(...)`. -/
def _get_conntrack_filter_from_rule (rule : FwRule) : List String :=
  (if truthy rule.protocol then ["-p", rule.protocol.getD ""] else []) ++
  (if rule.ip_version ≠ 0 then ["-f", "ipv" ++ toString rule.ip_version] else []) ++
  (if truthy rule.destination_port then
    ["--dport", rule.destination_port.getD ""] else []) ++
  (if truthy rule.source_port then
    ["--sport", rule.source_port.getD ""] else [])

/-- `_get_conntrack_cmd_from_rule(ipt_mgr, rule=None)`. -/
def _get_conntrack_cmd_from_rule (m : IptMgr) (rule : Option FwRule) : Cmd :=
  let prefixcmd := ["ip", "netns", "exec"] ++ [m.netns]
  let cmd := ["conntrack", "-D"]
  match rule with
  | some r => prefixcmd ++ cmd ++ _get_conntrack_filter_from_rule r
  | none => prefixcmd ++ cmd

/-- Modelled from the spec: `linux_utils.execute(cmd, run_as_root=True,
check_exit_code=..., extra_ok_codes=...)` of the external process layer,
evaluated against the exit code the spawned command returns: exit code 0 and
every code in `extra_ok_codes` succeed; any other code raises a
`RuntimeError` when `check_exit_code` is set. -/
def linux_execute (checkExit : Bool) (extraOk : List Nat) (exitCode : Nat) :
    Except LowErr Unit :=
  if checkExit && !(exitCode == 0 || extraOk.contains exitCode) then
    .error .runtimeError
  else
    .ok ()

/-- `_remove_conntrack_by_cmd(cmd)`, evaluated against the external command's
exit code.  Returns the outcome the caller observes plus whether the failure
branch logged.  An empty command list is falsy and skips the call; a
`RuntimeError` from `execute` is logged and swallowed. -/
def _remove_conntrack_by_cmd (cmd : Cmd) (exitCode : Nat) :
    Except LowErr Unit × Bool :=
  if (cmd : List String) ≠ [] then
    match linux_execute true [1] exitCode with
    | .ok () => (.ok (), false)
    | .error .runtimeError => (.ok (), true)
    | .error e => (.error e, false)
  else
    (.ok (), false)

/-- `_find_changed_rules(pre_firewall, firewall)` inner double loop over one
direction's lists: for each pre-rule and each current rule with the same id
but different content, append the pre-rule then the current rule. -/
def changedPairs (preL curL : List FwRule) : List FwRule :=
  preL.flatMap (fun p =>
    curL.flatMap (fun c =>
      if p.id = c.id ∧ p ≠ c then [p, c] else []))

/-- `_find_changed_rules(pre_firewall, firewall)`: accumulates over
`['egress_rule_list', 'ingress_rule_list']` in that order. -/
def _find_changed_rules (pre cur : Firewall) : List FwRule :=
  changedPairs pre.egress_rule_list cur.egress_rule_list ++
  changedPairs pre.ingress_rule_list cur.ingress_rule_list

/-- `_find_removed_rules` inner body for one direction: pre-rules whose id is
not among the current list's ids. -/
def removedIn (preL curL : List FwRule) : List FwRule :=
  preL.filter (fun p => !((curL.map (fun c => c.id)).contains p.id))

/-- `_find_removed_rules(pre_firewall, firewall)`: accumulates over
`['egress_rule_list', 'ingress_rule_list']` in that order. -/
def _find_removed_rules (pre cur : Firewall) : List FwRule :=
  removedIn pre.egress_rule_list cur.egress_rule_list ++
  removedIn pre.ingress_rule_list cur.ingress_rule_list

/-- `_find_new_rules(pre_firewall, firewall) =
_find_removed_rules(firewall, pre_firewall)`. -/
def _find_new_rules (pre cur : Firewall) : List FwRule :=
  _find_removed_rules cur pre

/-- `_get_ipt_mgrs_with_if_prefix(agent_mode, ri)`: resolves the filter
contexts (as manager-field references) plus interface-name prefixes a
firewall group must be applied to. -/
def _get_ipt_mgrs_with_if_pref (agent_mode : String) (ri : RouterInfo) :
    List (MgrRef × String) :=
  if !ri.distributed then
    [(.main, INTERNAL_DEV_PREF)]
  else
    (if agent_mode = "dvr_snat" then
      match ri.snat_iptables_manager with
      | some _ => [(.snat, SNAT_INT_DEV_PREF)]
      | none => []
    else []) ++
    (if ri.dist_fip_count ≠ 0 then [(.main, ROUTER_2_FIP_DEV_PREF)] else [])

/-- `_remove_chain_by_name(ver, chain_name, ipt_mgr)`. -/
def _remove_chain_by_name (ver : IpVer) (chain_name : String) (m : IptMgr) :
    IptMgr :=
  m.setTable ver ((m.filterTable ver).remove_chain chain_name)

/-- `_remove_chains(fwid, ipt_mgr)`: remove the four per-group chains
(v4/v6 × ingress/egress). -/
def _remove_chains (fwid : String) (m : IptMgr) : IptMgr :=
  let m := _remove_chain_by_name .v4 (_get_chain_name fwid .v4 .ingress) m
  let m := _remove_chain_by_name .v4 (_get_chain_name fwid .v4 .egress) m
  let m := _remove_chain_by_name .v6 (_get_chain_name fwid .v6 .ingress) m
  _remove_chain_by_name .v6 (_get_chain_name fwid .v6 .egress) m

/-- `_remove_default_chains(nsid)`. -/
def _remove_default_chains (m : IptMgr) : IptMgr :=
  let m := _remove_chain_by_name .v4 FWAAS_DEFAULT_CHAIN m
  _remove_chain_by_name .v6 FWAAS_DEFAULT_CHAIN m

/-- `_add_default_policy_chain_v4v6(ipt_mgr)`. -/
def _add_default_policy_chain_v4v6 (m : IptMgr) : Except LowErr IptMgr := do
  let t4 := m.ipv4_filter.add_chain FWAAS_DEFAULT_CHAIN
  let t4 ← t4.add_rule FWAAS_DEFAULT_CHAIN "-j DROP"
  let m := { m with ipv4_filter := t4 }
  let t6 := m.ipv6_filter.add_chain FWAAS_DEFAULT_CHAIN
  let t6 ← t6.add_rule FWAAS_DEFAULT_CHAIN "-j DROP"
  pure { m with ipv6_filter := t6 }

/-- `_add_rules_to_chain(ipt_mgr, ver, chain_name, rules)`. -/
def _add_rules_to_chain (m : IptMgr) (ver : IpVer) (chain : String) :
    List String → Except LowErr IptMgr
  | [] => .ok m
  | r :: rest => do
    let t ← (m.filterTable ver).add_rule chain r
    _add_rules_to_chain (m.setTable ver t) ver chain rest

/-- One chain of the first `_setup_chains` block: `add_chain` then the
invalid-drop rule then the established-accept rule. -/
def seedChain (t : IptTable) (name : String) : Except LowErr IptTable := do
  let t := t.add_chain name
  let t ← t.add_rule name _drop_invalid_packets_rule
  t.add_rule name _allow_established_rule

/-- The first block of `_setup_chains`: for each IP version, add the ingress
and egress per-group chains and seed each with the invalid-drop and
established-accept default rules, in that order. -/
def addDefaultSeeded (fwid : String) (m : IptMgr) : Except LowErr IptMgr := do
  let t4 ← seedChain m.ipv4_filter (_get_chain_name fwid .v4 .ingress)
  let t4 ← seedChain t4 (_get_chain_name fwid .v4 .egress)
  let t6 ← seedChain m.ipv6_filter (_get_chain_name fwid .v6 .ingress)
  let t6 ← seedChain t6 (_get_chain_name fwid .v6 .egress)
  pure ⟨t4, t6, m.netns⟩

/-- The per-direction rule loop of `_setup_chains`: skip disabled rules,
translate the rest, and append each to the per-group chain of its direction
and of its IP version (`ip_version == 4` selects the IPv4 table, anything
else the IPv6 table). -/
def addPolicyRules (fwid : String) (d : Dir) :
    List FwRule → IptMgr → Except LowErr IptMgr
  | [], m => .ok m
  | rule :: rest, m =>
    if !rule.enabled then addPolicyRules fwid d rest m
    else do
      let spec ← _convert_fwaas_to_iptables_rule rule
      let ver : IpVer := if rule.ip_version == 4 then .v4 else .v6
      let chain := _get_chain_name fwid ver d
      let t ← (m.filterTable ver).add_rule chain spec
      addPolicyRules fwid d rest (m.setTable ver t)

/-- The per-port loop of the first `_enable_policy_chain` block: add one jump
rule into `FORWARD` of table `ver` per attached port. -/
def addJumpLoop (ver : IpVer) (mk : String → String) :
    List String → IptMgr → Except LowErr IptMgr
  | [], m => .ok m
  | port :: rest, m => do
    let m ← _add_rules_to_chain m ver "FORWARD" [mk port]
    addJumpLoop ver mk rest m

/-- The per-port loops of the default-policy blocks of
`_enable_policy_chain`: per port, add the same jump rule to `FORWARD` of the
IPv4 table and then of the IPv6 table. -/
def addJumpLoopBoth (mk : String → String) :
    List String → IptMgr → Except LowErr IptMgr
  | [], m => .ok m
  | port :: rest, m => do
    let m ← _add_rules_to_chain m .v4 "FORWARD" [mk port]
    let m ← _add_rules_to_chain m .v6 "FORWARD" [mk port]
    addJumpLoopBoth mk rest m

/-- The jump rule `'%s %s -j %s-%s' % (IPTABLES_DIR[direction], intf_name,
binary_name, chain_name)` of `_enable_policy_chain`. -/
def policyJumpRule (d : Dir) (ifPref port chain_name : String) : String :=
  IPTABLES_DIR d ++ " " ++ _get_intf_name ifPref port ++ " -j " ++
    binary_name ++ "-" ++ chain_name

/-- The default-policy jump rule `'%s %s -j %s-%s'` with an explicit
`-o` / `-i` flag of `_enable_policy_chain`. -/
def defaultJumpRule (flag : String) (ifPref port : String) : String :=
  flag ++ " " ++ _get_intf_name ifPref port ++ " -j " ++
    binary_name ++ "-" ++ FWAAS_DEFAULT_CHAIN

/-- `_enable_policy_chain(fwid, ipt_if_prefix, router_fw_ports)`.  The
external `iptables_manager.get_chain_name` wrapping is modelled from the
spec as the identity (chain names never collide, spec section 4.3). -/
def _enable_policy_chain (fwid ifPref : String) (ports : List String)
    (m : IptMgr) : Except LowErr IptMgr := do
  let block : IptMgr → IpVer → Dir → Except LowErr IptMgr := fun m ver d =>
    let chain_name := _get_chain_name fwid ver d
    if chain_name ∈ (m.filterTable ver).chains then
      addJumpLoop ver (fun port => policyJumpRule d ifPref port chain_name)
        ports m
    else
      pure m
  let m ← block m .v4 .ingress
  let m ← block m .v4 .egress
  let m ← block m .v6 .ingress
  let m ← block m .v6 .egress
  let m ← addJumpLoopBoth (fun port => defaultJumpRule "-o" ifPref port) ports m
  addJumpLoopBoth (fun port => defaultJumpRule "-i" ifPref port) ports m

/-- `_setup_chains(firewall, ipt_if_prefix, router_fw_ports)`. -/
def _setup_chains (fw : Firewall) (ifPref : String) (ports : List String)
    (m : IptMgr) : Except LowErr IptMgr := do
  let m ← addDefaultSeeded fw.id m
  let m ← addPolicyRules fw.id .ingress fw.ingress_rule_list m
  let m ← addPolicyRules fw.id .egress fw.egress_rule_list m
  _enable_policy_chain fw.id ifPref ports m

/-- The body of `_setup_firewall`'s inner loop for one resolved target:
remove the per-group and default chains, recreate the default-deny chain,
then build the policy chains.  `defer_apply_off` makes the edits effective
immediately; in this state model edits are always immediately visible. -/
def setupOnTarget (fw : Firewall) (ifPref : String) (ports : List String)
    (m : IptMgr) : Except LowErr IptMgr := do
  let m := _remove_chains fw.id m
  let m := _remove_default_chains m
  let m ← _add_default_policy_chain_v4v6 m
  _setup_chains fw ifPref ports m

/-- The body of `apply_default_policy`'s inner loop for one resolved target:
remove the per-group and default chains, recreate the default-deny chain,
then attach only its jump rules. -/
def defaultPolicyOnTarget (fwid ifPref : String) (ports : List String)
    (m : IptMgr) : Except LowErr IptMgr := do
  let m := _remove_chains fwid m
  let m := _remove_default_chains m
  let m ← _add_default_policy_chain_v4v6 m
  _enable_policy_chain fwid ifPref ports m

/-- The body of `delete_firewall_group`'s inner loop for one resolved
target. -/
def deleteOnTarget (fwid : String) (m : IptMgr) : IptMgr :=
  _remove_default_chains (_remove_chains fwid m)

/-- Run a per-target step over a list of resolved `(manager, if_prefix)`
targets, writing each mutated manager back. -/
def applyTargets (step : String → IptMgr → Except LowErr IptMgr) :
    List (MgrRef × String) → RouterInfo → Except LowErr RouterInfo
  | [], ri => .ok ri
  | refPref :: rest, ri => do
    let m ← step refPref.2 (ri.getMgr refPref.1)
    applyTargets step rest (ri.setMgr refPref.1 m)

/-- Run a per-target step over every `(manager, if_prefix)` pair the resolver
yields for one router, writing each mutated manager back. -/
def applyOnRi (agent_mode : String)
    (step : String → IptMgr → Except LowErr IptMgr) (ri : RouterInfo) :
    Except LowErr RouterInfo :=
  applyTargets step (_get_ipt_mgrs_with_if_pref agent_mode ri) ri

/-- Process each apply-list entry with a per-router action, collecting the
mutated entries. -/
def mapEntries (f : ApplyEntry → Except LowErr RouterInfo) :
    List ApplyEntry → Except LowErr (List ApplyEntry)
  | [] => .ok []
  | entry :: rest => do
    let ri ← f entry
    let others ← mapEntries f rest
    pure (((ri, entry.2) : ApplyEntry) :: others)

/-- `_setup_firewall(agent_mode, apply_list, firewall)`. -/
def _setup_firewall (agent_mode : String) (apply_list : List ApplyEntry)
    (fw : Firewall) : Except LowErr (List ApplyEntry) :=
  mapEntries (fun entry =>
    applyOnRi agent_mode
      (fun ifPref m => setupOnTarget fw ifPref entry.2 m) entry.1)
    apply_list

/-- The loop body of `apply_default_policy` over the apply list (its
`try` / `except` funnel is part of the public operation below). -/
def applyDefaultPolicyTargets (agent_mode : String)
    (apply_list : List ApplyEntry) (fwid : String) :
    Except LowErr (List ApplyEntry) :=
  mapEntries (fun entry =>
    applyOnRi agent_mode
      (fun ifPref m => defaultPolicyOnTarget fwid ifPref entry.2 m) entry.1)
    apply_list

/-- `_remove_conntrack_new_firewall(agent_mode, apply_list, firewall)`:
deduplicate the routers of the apply list (`list(set(...))`, embedded as
first-occurrence dedup), and per resolved target issue one unfiltered
conntrack deletion.  Command execution never fails the operation (see
`_remove_conntrack_by_cmd`); the commands issued are collected. -/
def _remove_conntrack_new_firewall (agent_mode : String)
    (apply_list : List ApplyEntry) (_fw : Firewall) : List Cmd :=
  ((apply_list.map (fun e => e.1)).eraseDups).flatMap (fun ri =>
    (_get_ipt_mgrs_with_if_pref agent_mode ri).map (fun refPref =>
      _get_conntrack_cmd_from_rule (ri.getMgr refPref.1) none))

/-- `_remove_conntrack_updated_firewall(agent_mode, apply_list, pre_firewall,
firewall)`: per deduplicated router and resolved target, issue one filtered
conntrack deletion for every changed (old and new version), added, and
removed rule, in that order. -/
def _remove_conntrack_updated_firewall (agent_mode : String)
    (apply_list : List ApplyEntry) (pre fw : Firewall) : List Cmd :=
  ((apply_list.map (fun e => e.1)).eraseDups).flatMap (fun ri =>
    (_get_ipt_mgrs_with_if_pref agent_mode ri).flatMap (fun refPref =>
      let m := ri.getMgr refPref.1
      let ch_rules := _find_changed_rules pre fw
      let i_rules := _find_new_rules pre fw
      let r_rules := _find_removed_rules pre fw
      (ch_rules ++ i_rules ++ r_rules).map (fun rule =>
        _get_conntrack_cmd_from_rule m (some rule))))

/-- The result of a successful public driver operation: the mutated apply
list, the driver state, and the conntrack commands issued. -/
def OpResult := List ApplyEntry × DriverState × List Cmd
deriving instance DecidableEq, BEq, Repr for OpResult

/-- `apply_default_policy(agent_mode, apply_list, firewall)`: the loop over
targets with its `except (LookupError, RuntimeError)` clause funnelling any
low-level failure into the single generic driver error.  Does not touch
`pre_firewall`, and issues no conntrack command. -/
def apply_default_policy (agent_mode : String) (apply_list : List ApplyEntry)
    (fw : Firewall) (st : DriverState) : Except FwErr OpResult :=
  match applyDefaultPolicyTargets agent_mode apply_list fw.id with
  | .ok al => .ok (al, st, [])
  | .error _ => .error (.firewallInternalDriverError FWAAS_DRIVER_NAME)

/-- `create_firewall_group(agent_mode, apply_list, firewall)`: when admin
state is up, build the chains, flush conntrack unfiltered, and snapshot the
firewall into `pre_firewall`; otherwise delegate to `apply_default_policy`
(which leaves `pre_firewall` untouched).  Low-level failures of the admin-up
path are funnelled into the single generic driver error. -/
def create_firewall_group (agent_mode : String) (apply_list : List ApplyEntry)
    (fw : Firewall) (st : DriverState) : Except FwErr OpResult :=
  if fw.admin_state_up then
    match _setup_firewall agent_mode apply_list fw with
    | .ok al =>
      let cmds := _remove_conntrack_new_firewall agent_mode al fw
      .ok (al, ⟨some fw⟩, cmds)
    | .error _ => .error (.firewallInternalDriverError FWAAS_DRIVER_NAME)
  else
    apply_default_policy agent_mode apply_list fw st

/-- `update_firewall_group(agent_mode, apply_list, firewall)`: when admin
state is up, flush conntrack for the diff against `pre_firewall` (or
unfiltered when no snapshot exists), then rebuild the chains; otherwise
delegate to `apply_default_policy`.  On success of either branch,
`pre_firewall` is set to the applied firewall.  Low-level failures are
funnelled into the single generic driver error. -/
def update_firewall_group (agent_mode : String) (apply_list : List ApplyEntry)
    (fw : Firewall) (st : DriverState) : Except FwErr OpResult :=
  if fw.admin_state_up then
    let cmds := match st.pre_firewall with
      | some pre => _remove_conntrack_updated_firewall agent_mode apply_list
          pre fw
      | none => _remove_conntrack_new_firewall agent_mode apply_list fw
    match _setup_firewall agent_mode apply_list fw with
    | .ok al => .ok (al, ⟨some fw⟩, cmds)
    | .error _ => .error (.firewallInternalDriverError FWAAS_DRIVER_NAME)
  else
    match apply_default_policy agent_mode apply_list fw st with
    | .ok (al, _, cmds) => .ok (al, ⟨some fw⟩, cmds)
    | .error e => .error e

/-- `delete_firewall_group(agent_mode, apply_list, firewall)`: remove the
per-group and default chains on every resolved target and clear
`pre_firewall`.  The removal steps of the embedded filter-table model are
total, so the `except` funnel of the source has no failure to catch here. -/
def delete_firewall_group (agent_mode : String) (apply_list : List ApplyEntry)
    (fw : Firewall) (_st : DriverState) : Except FwErr OpResult :=
  let al := apply_list.map (fun entry =>
    ((_get_ipt_mgrs_with_if_pref agent_mode entry.1).foldl
      (fun ri refPref =>
        ri.setMgr refPref.1 (deleteOnTarget fw.id (ri.getMgr refPref.1)))
      entry.1,
     entry.2))
  .ok (al, ⟨none⟩, [])

/-- The spec's reading of the persisted snapshot state: the
"last applied rule set" snapshot **of one firewall-group id** (spec
section 6).  Over the driver's single-slot state, group `gid`'s snapshot is
the slot's content when the slot holds that group, and absent otherwise. -/
def specSnapshotFor (st : DriverState) (gid : String) : Option Firewall :=
  match st.pre_firewall with
  | some f => if f.id = gid then some f else none
  | none => none

/-- A rule template with every optional field unset. -/
def baseRule : FwRule :=
  { id := "r0", enabled := true, action := some "allow", ip_version := 4,
    protocol := none, source_port := none, destination_port := none,
    source_ip_address := none, destination_ip_address := none }

/-- The previous version of rule `r1` from the C4 example:
protocol tcp, destination port 80. -/
def exRulePre : FwRule :=
  { baseRule with
    id := "r1", protocol := some "tcp", destination_port := some "80" }

/-- The current version of rule `r1` from the C4 example:
protocol udp, destination port 53. -/
def exRuleCur : FwRule :=
  { baseRule with
    id := "r1", protocol := some "udp", destination_port := some "53" }

/-- A fresh filter table holding only the built-in `FORWARD` chain. -/
def freshTable : IptTable := { chains := ["FORWARD"], rules := [] }

/-- A fresh manager for namespace `qrouter-1`. -/
def freshMgr : IptMgr :=
  { ipv4_filter := freshTable, ipv6_filter := freshTable, netns := "qrouter-1" }

/-- A non-distributed router backed by `freshMgr`. -/
def freshRi : RouterInfo :=
  { distributed := false, iptables_manager := freshMgr,
    snat_iptables_manager := none, dist_fip_count := 0 }

/-- A one-router, one-port apply list. -/
def freshEntry : ApplyEntry := (freshRi, ["port1"])

/-- The C4 example's previous firewall: ingress policy `[exRulePre]`. -/
def exPreFw : Firewall :=
  { id := "fw1", tenant_id := "t1", admin_state_up := true,
    ingress_rule_list := [exRulePre], egress_rule_list := [] }

/-- The C4 example's current firewall: ingress policy `[exRuleCur]`. -/
def exCurFw : Firewall :=
  { id := "fw1", tenant_id := "t1", admin_state_up := true,
    ingress_rule_list := [exRuleCur], egress_rule_list := [] }

/-- Firewall group `A` with no rules, admin state up. -/
def fwA : Firewall :=
  { id := "A", tenant_id := "t1", admin_state_up := true,
    ingress_rule_list := [], egress_rule_list := [] }

/-- Firewall group `B` with no rules, admin state up. -/
def fwB : Firewall :=
  { id := "B", tenant_id := "t1", admin_state_up := true,
    ingress_rule_list := [], egress_rule_list := [] }

/-- Firewall group `A` with admin state down. -/
def fwAdown : Firewall := { fwA with admin_state_up := false }

/-- Driver state after `create_firewall_group` of `fwB` on a fresh target. -/
def stAfterCreateB : DriverState :=
  match create_firewall_group "legacy" [freshEntry] fwB ⟨none⟩ with
  | .ok res => res.2.1
  | .error _ => ⟨none⟩

/-- Apply list after `create_firewall_group` of `fwB` on a fresh target. -/
def alAfterCreateB : List ApplyEntry :=
  match create_firewall_group "legacy" [freshEntry] fwB ⟨none⟩ with
  | .ok res => res.1
  | .error _ => []

/-- Driver state after creating `fwB` and then `fwA`. -/
def stAfterCreateBA : DriverState :=
  match create_firewall_group "legacy" alAfterCreateB fwA stAfterCreateB with
  | .ok res => res.2.1
  | .error _ => ⟨none⟩

/-- Result of creating `fwA` while the snapshot slot holds `fwB`. -/
def c1WitnessRes : OpResult :=
  match create_firewall_group "legacy" [freshEntry] fwA ⟨some fwB⟩ with
  | .ok res => res
  | .error _ => ([], ⟨none⟩, [])

/-- Result of an admin-down create of `fwAdown` while the snapshot slot
holds `fwB`. -/
def c6WitnessRes : OpResult :=
  match create_firewall_group "legacy" [freshEntry] fwAdown ⟨some fwB⟩ with
  | .ok res => res
  | .error _ => ([], ⟨none⟩, [])

/-- A manager whose filter tables lack the built-in `FORWARD` chain, so that
attaching jump rules fails with a lookup error. -/
def noForwardMgr : IptMgr :=
  { ipv4_filter := { chains := [], rules := [] },
    ipv6_filter := { chains := [], rules := [] }, netns := "ns0" }

/-- A one-router apply list over `noForwardMgr`. -/
def noForwardEntry : ApplyEntry :=
  ({ distributed := false, iptables_manager := noForwardMgr,
     snat_iptables_manager := none, dist_fip_count := 0 }, ["port1"])

/-- The error produced by creating `fwA` over `noForwardEntry`. -/
def c8Err : FwErr :=
  match create_firewall_group "legacy" [noForwardEntry] fwA ⟨none⟩ with
  | .ok _ => .validationError
  | .error e => e

/-- The chain set after `addChain` (pure list form). -/
def chainsAfterAdd (cs : List String) (n : String) : List String :=
  if n ∈ cs then cs else cs ++ [n]

/-- `chainRules` on a bare rule list. -/
def chainRulesL (rs : List (String × String)) (c : String) : List String :=
  (rs.filter (fun cr => cr.1 = c)).map (fun cr => cr.2)

/-- The direction's rule list of a firewall. -/
def dirList (fw : Firewall) : Dir → List FwRule
  | .ingress => fw.ingress_rule_list
  | .egress => fw.egress_rule_list

/-- The filter-table content `apply_default_policy` produces on a fresh
table: the `FORWARD` and default-deny chains, the default-deny drop rule,
and per port one `-o` and one `-i` jump from `FORWARD` into the default-deny
chain — nothing else. -/
def defaultOnlyTable (ifPref : String) (ports : List String) : IptTable :=
  { chains := ["FORWARD", FWAAS_DEFAULT_CHAIN],
    rules := [(FWAAS_DEFAULT_CHAIN, "-j DROP")] ++
      ports.map (fun p => ("FORWARD", defaultJumpRule "-o" ifPref p)) ++
      ports.map (fun p => ("FORWARD", defaultJumpRule "-i" ifPref p)) }

/-- `freshRi` after an admin-down apply: both filter tables hold only the
default-deny configuration. -/
def defaultOnlyRi (ports : List String) : RouterInfo :=
  { freshRi with
    iptables_manager :=
      { ipv4_filter := defaultOnlyTable INTERNAL_DEV_PREF ports,
        ipv6_filter := defaultOnlyTable INTERNAL_DEV_PREF ports,
        netns := "qrouter-1" } }

/-! ## Theorems settling the claims -/

/-! Helper lemmas about the filter-table model and chain names. -/

lemma ok_bind {α β : Type} (a : α) (f : α → Except LowErr β) :
    (Except.ok a >>= f) = f a := rfl

lemma error_bind {α β : Type} (e : LowErr) (f : α → Except LowErr β) :
    ((Except.error e : Except LowErr α) >>= f) = .error e := rfl

lemma pure_bind_ex {α β : Type} (a : α) (f : α → Except LowErr β) :
    ((pure a : Except LowErr α) >>= f) = f a := rfl

lemma get_chain_name_ne_FORWARD (fwid : String) (ver : IpVer) (d : Dir) :
    _get_chain_name fwid ver d ≠ "FORWARD" := by
  intro h
  have h2 := congrArg String.data h
  cases ver <;> cases d <;>
    simp [_get_chain_name, CHAIN_NAME_PREF, IP_VER_TAG,
      String.data_append] at h2

lemma get_chain_name_ne_default (fwid : String) (ver : IpVer) (d : Dir) :
    _get_chain_name fwid ver d ≠ FWAAS_DEFAULT_CHAIN := by
  intro h
  have h2 := congrArg String.data h
  cases ver <;> cases d <;>
    simp [_get_chain_name, CHAIN_NAME_PREF, IP_VER_TAG, FWAAS_DEFAULT_CHAIN,
      String.data_append] at h2

lemma get_chain_name_ne_dir (fwid : String) (ver : IpVer) :
    _get_chain_name fwid ver .ingress ≠ _get_chain_name fwid ver .egress := by
  intro h
  have h2 := congrArg String.data h
  cases ver <;>
    simp [_get_chain_name, CHAIN_NAME_PREF, IP_VER_TAG,
      String.data_append] at h2

lemma add_chain_chains (t : IptTable) (n : String) :
    (t.add_chain n).chains = chainsAfterAdd t.chains n := by
  unfold IptTable.add_chain chainsAfterAdd
  split <;> rfl

lemma add_chain_rules (t : IptTable) (n : String) :
    (t.add_chain n).rules = t.rules := by
  unfold IptTable.add_chain
  split <;> rfl

lemma mem_chainsAfterAdd_self (cs : List String) (n : String) :
    n ∈ chainsAfterAdd cs n := by
  unfold chainsAfterAdd
  split
  · assumption
  · simp

lemma mem_chainsAfterAdd_of_mem (cs : List String) (n c : String)
    (h : c ∈ cs) : c ∈ chainsAfterAdd cs n := by
  unfold chainsAfterAdd
  split <;> simp [h]

lemma mem_chainsAfterAdd_iff (cs : List String) (n c : String) :
    c ∈ chainsAfterAdd cs n ↔ c ∈ cs ∨ c = n := by
  unfold chainsAfterAdd
  split
  · rename_i h
    constructor
    · exact Or.inl
    · rintro (hc | rfl)
      · exact hc
      · exact h
  · simp

lemma add_rule_ok (t : IptTable) (chain r : String) (h : chain ∈ t.chains) :
    t.add_rule chain r = .ok ⟨t.chains, t.rules ++ [(chain, r)]⟩ := by
  unfold IptTable.add_rule
  rw [if_pos h]

lemma seedChain_eq (t : IptTable) (n : String) :
    seedChain t n = .ok ⟨chainsAfterAdd t.chains n,
      t.rules ++ [(n, _drop_invalid_packets_rule),
                  (n, _allow_established_rule)]⟩ := by
  unfold seedChain
  dsimp only
  have h1 : n ∈ (t.add_chain n).chains := by
    rw [add_chain_chains]; exact mem_chainsAfterAdd_self _ _
  rw [add_rule_ok _ _ _ h1, add_chain_chains, add_chain_rules, ok_bind]
  have h2 : n ∈ (⟨chainsAfterAdd t.chains n,
      t.rules ++ [(n, _drop_invalid_packets_rule)]⟩ : IptTable).chains :=
    mem_chainsAfterAdd_self _ _
  rw [add_rule_ok _ _ _ h2]
  simp

lemma addDefaultSeeded_eq (fwid : String) (m : IptMgr) :
    addDefaultSeeded fwid m = .ok
      ⟨⟨chainsAfterAdd (chainsAfterAdd m.ipv4_filter.chains
            (_get_chain_name fwid .v4 .ingress))
          (_get_chain_name fwid .v4 .egress),
        m.ipv4_filter.rules ++
          [(_get_chain_name fwid .v4 .ingress, _drop_invalid_packets_rule),
           (_get_chain_name fwid .v4 .ingress, _allow_established_rule),
           (_get_chain_name fwid .v4 .egress, _drop_invalid_packets_rule),
           (_get_chain_name fwid .v4 .egress, _allow_established_rule)]⟩,
       ⟨chainsAfterAdd (chainsAfterAdd m.ipv6_filter.chains
            (_get_chain_name fwid .v6 .ingress))
          (_get_chain_name fwid .v6 .egress),
        m.ipv6_filter.rules ++
          [(_get_chain_name fwid .v6 .ingress, _drop_invalid_packets_rule),
           (_get_chain_name fwid .v6 .ingress, _allow_established_rule),
           (_get_chain_name fwid .v6 .egress, _drop_invalid_packets_rule),
           (_get_chain_name fwid .v6 .egress, _allow_established_rule)]⟩,
       m.netns⟩ := by
  unfold addDefaultSeeded
  rw [seedChain_eq, ok_bind, seedChain_eq, ok_bind,
    seedChain_eq, ok_bind, seedChain_eq, ok_bind]
  simp [pure, Except.pure, List.append_assoc]

/-- C5: for all pairs of previous and current firewall states, the added
rules equal the removed rules computed with the two states' roles swapped
(`_find_new_rules(pre, cur) = _find_removed_rules(cur, pre)`), and a rule is
added exactly when it occurs in a current direction list with an id absent
from the previous list of the same direction. -/
theorem claim_C5 :
    (∀ pre cur : Firewall,
      _find_new_rules pre cur = _find_removed_rules cur pre) ∧
    (∀ (pre cur : Firewall) (r : FwRule),
      r ∈ _find_new_rules pre cur ↔
        ((r ∈ cur.egress_rule_list ∧
            r.id ∉ pre.egress_rule_list.map (fun c => c.id)) ∨
         (r ∈ cur.ingress_rule_list ∧
            r.id ∉ pre.ingress_rule_list.map (fun c => c.id)))) := by
  refine ⟨fun pre cur => rfl, fun pre cur r => ?_⟩
  simp [_find_new_rules, _find_removed_rules, removedIn, List.mem_filter,
    List.mem_append]

/-- C9: no conntrack-flush failure propagates: `_remove_conntrack_by_cmd`
returns success for every command and every external exit code; exit code 1
("no matching entries") is already a success of the underlying `execute`
call (so nothing is even logged for it); every other non-zero exit code is
logged and swallowed. -/
theorem claim_C9 :
    (∀ (cmd : Cmd) (code : Nat),
      (_remove_conntrack_by_cmd cmd code).1 = .ok ()) ∧
    linux_execute true [1] 1 = .ok () ∧
    (∀ (cmd : Cmd) (code : Nat),
      (_remove_conntrack_by_cmd cmd code).2 = true ↔
        ((cmd : List String) ≠ [] ∧ code ≠ 0 ∧ code ≠ 1)) := by
  refine ⟨fun cmd code => ?_, rfl, fun cmd code => ?_⟩ <;>
    · unfold _remove_conntrack_by_cmd linux_execute
      rcases cmd with _ | ⟨a, rest⟩ <;>
        rcases h0 : (code == 0 : Bool) <;> rcases h1 : (code == 1 : Bool) <;>
          simp_all [List.contains]

/-- C10: every conntrack flush filter is built only from the protocol,
IP version, destination-port and source-port keys of the triggering rule,
each included only when set; the rule's source and destination address
fields never influence any flush filter or flush command. -/
theorem claim_C10 :
    (∀ (r : FwRule) (sa da : Option String),
      _get_conntrack_filter_from_rule
        { r with source_ip_address := sa, destination_ip_address := da } =
        _get_conntrack_filter_from_rule r) ∧
    (∀ r : FwRule,
      _get_conntrack_filter_from_rule r =
        (if truthy r.protocol then ["-p", r.protocol.getD ""] else []) ++
        (if r.ip_version ≠ 0 then
          ["-f", "ipv" ++ toString r.ip_version] else []) ++
        (if truthy r.destination_port then
          ["--dport", r.destination_port.getD ""] else []) ++
        (if truthy r.source_port then
          ["--sport", r.source_port.getD ""] else [])) ∧
    (∀ (m : IptMgr) (r sa da : _),
      _get_conntrack_cmd_from_rule m
        (some { r with source_ip_address := sa, destination_ip_address := da }) =
        ["ip", "netns", "exec", m.netns, "conntrack", "-D"] ++
          _get_conntrack_filter_from_rule r) := by
  exact ⟨fun r sa da => rfl, fun r => rfl, fun m r sa da => rfl⟩

lemma convert_eq_convOk (r : FwRule) (h : validAction r) :
    _convert_fwaas_to_iptables_rule r = .ok (convOk r) := by
  unfold validAction at h
  unfold _convert_fwaas_to_iptables_rule convOk
  cases hm : FWAAS_TO_IPTABLE_ACTION_MAP r.action with
  | none => simp [hm] at h
  | some a => rfl

lemma chainRulesL_append (r1 r2 : List (String × String)) (c : String) :
    chainRulesL (r1 ++ r2) c = chainRulesL r1 c ++ chainRulesL r2 c := by
  simp [chainRulesL]

lemma chainRulesL_pairs_same {α : Type} (l : List α) (f : α → String)
    (c : String) :
    chainRulesL (l.map (fun a => (c, f a))) c = l.map f := by
  induction l with
  | nil => rfl
  | cons a l ih => simpa [chainRulesL, List.filter_cons] using ih

lemma chainRulesL_pairs_other {α : Type} (l : List α) (f : α → String)
    (c c' : String) (h : c' ≠ c) :
    chainRulesL (l.map (fun a => (c', f a))) c = [] := by
  induction l with
  | nil => rfl
  | cons a l ih => simpa [chainRulesL, List.filter_cons, h] using ih

lemma chainRulesL_eq_nil_of (rs : List (String × String)) (c : String)
    (h : ∀ cr ∈ rs, cr.1 ≠ c) : chainRulesL rs c = [] := by
  induction rs with
  | nil => rfl
  | cons cr rest ih =>
    have h1 := h cr (by simp)
    simp only [chainRulesL, List.filter_cons]
    rw [if_neg (by simpa using h1)]
    exact ih (fun x hx => h x (List.mem_cons_of_mem _ hx))

lemma chainRules_eq_L (t : IptTable) (c : String) :
    t.chainRules c = chainRulesL t.rules c := rfl

lemma remove_chain_not_mem (t : IptTable) (n : String) (h : n ∉ t.chains) :
    t.remove_chain n = t := by
  unfold IptTable.remove_chain
  rw [if_neg h]

lemma mem_remove_chain_chains (t : IptTable) (n c : String) :
    c ∈ (t.remove_chain n).chains ↔ c ∈ t.chains ∧ c ≠ n := by
  unfold IptTable.remove_chain
  split
  · simp [List.mem_filter]
  · rename_i h
    constructor
    · intro hc
      exact ⟨hc, fun he => h (he ▸ hc)⟩
    · exact fun hc => hc.1

lemma rules_subset_remove_chain (t : IptTable) (n : String) :
    ∀ cr ∈ (t.remove_chain n).rules, cr ∈ t.rules := by
  unfold IptTable.remove_chain
  split
  · intro cr hcr
    exact (List.mem_filter.mp hcr).1
  · intro cr hcr
    exact hcr

lemma no_rules_remove_chain_self (t : IptTable) (n : String)
    (hwf : ∀ cr ∈ t.rules, cr.1 ∈ t.chains) :
    ∀ cr ∈ (t.remove_chain n).rules, cr.1 ≠ n := by
  unfold IptTable.remove_chain
  split
  · intro cr hcr
    have := (List.mem_filter.mp hcr).2
    simp at this
    exact this.1
  · rename_i h
    intro cr hcr he
    exact h (he ▸ hwf cr hcr)

lemma wf_remove_chain (t : IptTable) (n : String)
    (hwf : ∀ cr ∈ t.rules, cr.1 ∈ t.chains) :
    ∀ cr ∈ (t.remove_chain n).rules, cr.1 ∈ (t.remove_chain n).chains := by
  intro cr hcr
  rw [mem_remove_chain_chains]
  exact ⟨hwf cr (rules_subset_remove_chain t n cr hcr),
    no_rules_remove_chain_self t n hwf cr hcr⟩

lemma remove_chains_eq (fwid : String) (m : IptMgr) :
    _remove_chains fwid m =
      ⟨(m.ipv4_filter.remove_chain
          (_get_chain_name fwid .v4 .ingress)).remove_chain
          (_get_chain_name fwid .v4 .egress),
       (m.ipv6_filter.remove_chain
          (_get_chain_name fwid .v6 .ingress)).remove_chain
          (_get_chain_name fwid .v6 .egress),
       m.netns⟩ := by
  obtain ⟨t4, t6, ns⟩ := m
  rfl

lemma remove_default_chains_eq (m : IptMgr) :
    _remove_default_chains m =
      ⟨m.ipv4_filter.remove_chain FWAAS_DEFAULT_CHAIN,
       m.ipv6_filter.remove_chain FWAAS_DEFAULT_CHAIN, m.netns⟩ := by
  obtain ⟨t4, t6, ns⟩ := m
  rfl

lemma add_default_policy_eq (m : IptMgr) :
    _add_default_policy_chain_v4v6 m = .ok
      ⟨⟨chainsAfterAdd m.ipv4_filter.chains FWAAS_DEFAULT_CHAIN,
        m.ipv4_filter.rules ++ [(FWAAS_DEFAULT_CHAIN, "-j DROP")]⟩,
       ⟨chainsAfterAdd m.ipv6_filter.chains FWAAS_DEFAULT_CHAIN,
        m.ipv6_filter.rules ++ [(FWAAS_DEFAULT_CHAIN, "-j DROP")]⟩,
       m.netns⟩ := by
  unfold _add_default_policy_chain_v4v6
  dsimp only
  rw [add_rule_ok _ _ _
      (by rw [add_chain_chains]; exact mem_chainsAfterAdd_self _ _),
    add_chain_chains, add_chain_rules, ok_bind]
  rw [add_rule_ok _ _ _
      (by rw [add_chain_chains]; exact mem_chainsAfterAdd_self _ _),
    add_chain_chains, add_chain_rules, ok_bind]
  rfl

lemma addPolicyRules_eq (fwid : String) (d : Dir) (l : List FwRule) :
    ∀ m : IptMgr,
    _get_chain_name fwid .v4 d ∈ m.ipv4_filter.chains →
    _get_chain_name fwid .v6 d ∈ m.ipv6_filter.chains →
    (∀ r ∈ l, r.enabled = true → validAction r) →
    addPolicyRules fwid d l m = .ok
      ⟨⟨m.ipv4_filter.chains, m.ipv4_filter.rules ++
          (l.filter (fun r => r.enabled && r.ip_version == 4)).map
            (fun r => (_get_chain_name fwid .v4 d, convOk r))⟩,
       ⟨m.ipv6_filter.chains, m.ipv6_filter.rules ++
          (l.filter (fun r => r.enabled && !(r.ip_version == 4))).map
            (fun r => (_get_chain_name fwid .v6 d, convOk r))⟩,
       m.netns⟩ := by
  induction l with
  | nil =>
    intro m h4 h6 hval
    obtain ⟨⟨c4, r4⟩, ⟨c6, r6⟩, ns⟩ := m
    simp [addPolicyRules]
  | cons r rest ih =>
    intro m h4 h6 hval
    by_cases hen : r.enabled = true
    · have hcv := convert_eq_convOk r (hval r (by simp) hen)
      simp only [addPolicyRules, hen, Bool.not_true, Bool.false_eq_true,
        if_false, hcv, ok_bind]
      by_cases hv : (r.ip_version == 4) = true
      · simp only [hv, if_true, IptMgr.filterTable, IptMgr.setTable]
        rw [add_rule_ok _ _ _ h4, ok_bind]
        have hrec := ih
          ⟨⟨m.ipv4_filter.chains,
             m.ipv4_filter.rules ++ [(_get_chain_name fwid .v4 d, convOk r)]⟩,
           m.ipv6_filter, m.netns⟩ h4 h6
          (fun x hx hex => hval x (List.mem_cons_of_mem _ hx) hex)
        rw [hrec]
        simp [List.filter_cons, hen, hv, List.append_assoc]
      · simp only [hv, Bool.false_eq_true, if_false, IptMgr.filterTable,
          IptMgr.setTable]
        rw [add_rule_ok _ _ _ h6, ok_bind]
        have hrec := ih
          ⟨m.ipv4_filter,
           ⟨m.ipv6_filter.chains,
             m.ipv6_filter.rules ++ [(_get_chain_name fwid .v6 d, convOk r)]⟩,
           m.netns⟩ h4 h6
          (fun x hx hex => hval x (List.mem_cons_of_mem _ hx) hex)
        rw [hrec]
        simp [List.filter_cons, hen, hv, List.append_assoc]
    · have hen' : r.enabled = false := by
        rcases hr : r.enabled with _ | _
        · rfl
        · exact absurd hr hen
      simp only [addPolicyRules, hen', Bool.not_false, if_true]
      rw [ih _ h4 h6 (fun x hx hex => hval x (List.mem_cons_of_mem _ hx) hex)]
      simp [List.filter_cons, hen']

lemma addJumpLoop_v4_eq (mk : String → String) :
    ∀ (ports : List String) (m : IptMgr),
    "FORWARD" ∈ m.ipv4_filter.chains →
    addJumpLoop .v4 mk ports m = .ok
      ⟨⟨m.ipv4_filter.chains,
        m.ipv4_filter.rules ++ ports.map (fun p => ("FORWARD", mk p))⟩,
       m.ipv6_filter, m.netns⟩ := by
  intro ports
  induction ports with
  | nil =>
    intro m h
    obtain ⟨⟨c4, r4⟩, t6, ns⟩ := m
    simp [addJumpLoop]
  | cons p ps ih =>
    intro m h
    simp only [addJumpLoop, _add_rules_to_chain, IptMgr.filterTable,
      IptMgr.setTable]
    rw [add_rule_ok _ _ _ h, ok_bind]
    have hrec := ih
      ⟨⟨m.ipv4_filter.chains, m.ipv4_filter.rules ++ [("FORWARD", mk p)]⟩,
       m.ipv6_filter, m.netns⟩ h
    rw [ok_bind, hrec]
    simp [List.append_assoc]

lemma addJumpLoop_v6_eq (mk : String → String) :
    ∀ (ports : List String) (m : IptMgr),
    "FORWARD" ∈ m.ipv6_filter.chains →
    addJumpLoop .v6 mk ports m = .ok
      ⟨m.ipv4_filter,
       ⟨m.ipv6_filter.chains,
        m.ipv6_filter.rules ++ ports.map (fun p => ("FORWARD", mk p))⟩,
       m.netns⟩ := by
  intro ports
  induction ports with
  | nil =>
    intro m h
    obtain ⟨t4, ⟨c6, r6⟩, ns⟩ := m
    simp [addJumpLoop]
  | cons p ps ih =>
    intro m h
    simp only [addJumpLoop, _add_rules_to_chain, IptMgr.filterTable,
      IptMgr.setTable]
    rw [add_rule_ok _ _ _ h, ok_bind]
    have hrec := ih
      ⟨m.ipv4_filter,
       ⟨m.ipv6_filter.chains, m.ipv6_filter.rules ++ [("FORWARD", mk p)]⟩,
       m.netns⟩ h
    rw [ok_bind, hrec]
    simp [List.append_assoc]

lemma addJumpLoopBoth_eq (mk : String → String) :
    ∀ (ports : List String) (m : IptMgr),
    "FORWARD" ∈ m.ipv4_filter.chains → "FORWARD" ∈ m.ipv6_filter.chains →
    addJumpLoopBoth mk ports m = .ok
      ⟨⟨m.ipv4_filter.chains,
        m.ipv4_filter.rules ++ ports.map (fun p => ("FORWARD", mk p))⟩,
       ⟨m.ipv6_filter.chains,
        m.ipv6_filter.rules ++ ports.map (fun p => ("FORWARD", mk p))⟩,
       m.netns⟩ := by
  intro ports
  induction ports with
  | nil =>
    intro m h4 h6
    obtain ⟨⟨c4, r4⟩, ⟨c6, r6⟩, ns⟩ := m
    simp [addJumpLoopBoth]
  | cons p ps ih =>
    intro m h4 h6
    simp only [addJumpLoopBoth, _add_rules_to_chain, IptMgr.filterTable,
      IptMgr.setTable]
    rw [add_rule_ok _ _ _ h4, ok_bind, ok_bind]
    rw [add_rule_ok _ _ _ h6, ok_bind, ok_bind]
    have hrec := ih
      ⟨⟨m.ipv4_filter.chains, m.ipv4_filter.rules ++ [("FORWARD", mk p)]⟩,
       ⟨m.ipv6_filter.chains, m.ipv6_filter.rules ++ [("FORWARD", mk p)]⟩,
       m.netns⟩ h4 h6
    rw [hrec]
    simp [List.append_assoc]

lemma enable_all_present (fwid ifPref : String) (ports : List String)
    (m : IptMgr)
    (h4i : _get_chain_name fwid .v4 .ingress ∈ m.ipv4_filter.chains)
    (h4o : _get_chain_name fwid .v4 .egress ∈ m.ipv4_filter.chains)
    (h6i : _get_chain_name fwid .v6 .ingress ∈ m.ipv6_filter.chains)
    (h6o : _get_chain_name fwid .v6 .egress ∈ m.ipv6_filter.chains)
    (hF4 : "FORWARD" ∈ m.ipv4_filter.chains)
    (hF6 : "FORWARD" ∈ m.ipv6_filter.chains) :
    _enable_policy_chain fwid ifPref ports m = .ok
      ⟨⟨m.ipv4_filter.chains, m.ipv4_filter.rules ++
          ports.map (fun p => ("FORWARD", policyJumpRule .ingress ifPref p
            (_get_chain_name fwid .v4 .ingress))) ++
          ports.map (fun p => ("FORWARD", policyJumpRule .egress ifPref p
            (_get_chain_name fwid .v4 .egress))) ++
          ports.map (fun p => ("FORWARD", defaultJumpRule "-o" ifPref p)) ++
          ports.map (fun p => ("FORWARD", defaultJumpRule "-i" ifPref p))⟩,
       ⟨m.ipv6_filter.chains, m.ipv6_filter.rules ++
          ports.map (fun p => ("FORWARD", policyJumpRule .ingress ifPref p
            (_get_chain_name fwid .v6 .ingress))) ++
          ports.map (fun p => ("FORWARD", policyJumpRule .egress ifPref p
            (_get_chain_name fwid .v6 .egress))) ++
          ports.map (fun p => ("FORWARD", defaultJumpRule "-o" ifPref p)) ++
          ports.map (fun p => ("FORWARD", defaultJumpRule "-i" ifPref p))⟩,
       m.netns⟩ := by
  obtain ⟨⟨c4, r4⟩, ⟨c6, r6⟩, ns⟩ := m
  dsimp only at h4i h4o h6i h6o hF4 hF6
  unfold _enable_policy_chain
  dsimp only [IptMgr.filterTable]
  rw [if_pos h4i,
    addJumpLoop_v4_eq _ ports ⟨⟨c4, r4⟩, ⟨c6, r6⟩, ns⟩ hF4, ok_bind]
  dsimp only
  rw [if_pos h4o,
    addJumpLoop_v4_eq _ ports
      ⟨⟨c4, r4 ++ List.map (fun p => ("FORWARD",
          policyJumpRule Dir.ingress ifPref p
            (_get_chain_name fwid IpVer.v4 Dir.ingress))) ports⟩,
       ⟨c6, r6⟩, ns⟩ hF4, ok_bind]
  dsimp only
  rw [if_pos h6i,
    addJumpLoop_v6_eq _ ports
      ⟨⟨c4, r4 ++ List.map (fun p => ("FORWARD",
          policyJumpRule Dir.ingress ifPref p
            (_get_chain_name fwid IpVer.v4 Dir.ingress))) ports ++
          List.map (fun p => ("FORWARD",
            policyJumpRule Dir.egress ifPref p
              (_get_chain_name fwid IpVer.v4 Dir.egress))) ports⟩,
       ⟨c6, r6⟩, ns⟩ hF6, ok_bind]
  dsimp only
  rw [if_pos h6o,
    addJumpLoop_v6_eq _ ports
      ⟨⟨c4, r4 ++ List.map (fun p => ("FORWARD",
          policyJumpRule Dir.ingress ifPref p
            (_get_chain_name fwid IpVer.v4 Dir.ingress))) ports ++
          List.map (fun p => ("FORWARD",
            policyJumpRule Dir.egress ifPref p
              (_get_chain_name fwid IpVer.v4 Dir.egress))) ports⟩,
       ⟨c6, r6 ++ List.map (fun p => ("FORWARD",
          policyJumpRule Dir.ingress ifPref p
            (_get_chain_name fwid IpVer.v6 Dir.ingress))) ports⟩,
       ns⟩ hF6, ok_bind]
  dsimp only
  rw [addJumpLoopBoth_eq _ ports
      ⟨⟨c4, r4 ++ List.map (fun p => ("FORWARD",
          policyJumpRule Dir.ingress ifPref p
            (_get_chain_name fwid IpVer.v4 Dir.ingress))) ports ++
          List.map (fun p => ("FORWARD",
            policyJumpRule Dir.egress ifPref p
              (_get_chain_name fwid IpVer.v4 Dir.egress))) ports⟩,
       ⟨c6, r6 ++ List.map (fun p => ("FORWARD",
          policyJumpRule Dir.ingress ifPref p
            (_get_chain_name fwid IpVer.v6 Dir.ingress))) ports ++
          List.map (fun p => ("FORWARD",
            policyJumpRule Dir.egress ifPref p
              (_get_chain_name fwid IpVer.v6 Dir.egress))) ports⟩,
       ns⟩ hF4 hF6, ok_bind]
  dsimp only
  rw [addJumpLoopBoth_eq _ ports
      ⟨⟨c4, r4 ++ List.map (fun p => ("FORWARD",
          policyJumpRule Dir.ingress ifPref p
            (_get_chain_name fwid IpVer.v4 Dir.ingress))) ports ++
          List.map (fun p => ("FORWARD",
            policyJumpRule Dir.egress ifPref p
              (_get_chain_name fwid IpVer.v4 Dir.egress))) ports ++
          List.map (fun p => ("FORWARD",
            defaultJumpRule "-o" ifPref p)) ports⟩,
       ⟨c6, r6 ++ List.map (fun p => ("FORWARD",
          policyJumpRule Dir.ingress ifPref p
            (_get_chain_name fwid IpVer.v6 Dir.ingress))) ports ++
          List.map (fun p => ("FORWARD",
            policyJumpRule Dir.egress ifPref p
              (_get_chain_name fwid IpVer.v6 Dir.egress))) ports ++
          List.map (fun p => ("FORWARD",
            defaultJumpRule "-o" ifPref p)) ports⟩,
       ns⟩ hF4 hF6]

lemma enable_none_present (fwid ifPref : String) (ports : List String)
    (m : IptMgr)
    (h4i : _get_chain_name fwid .v4 .ingress ∉ m.ipv4_filter.chains)
    (h4o : _get_chain_name fwid .v4 .egress ∉ m.ipv4_filter.chains)
    (h6i : _get_chain_name fwid .v6 .ingress ∉ m.ipv6_filter.chains)
    (h6o : _get_chain_name fwid .v6 .egress ∉ m.ipv6_filter.chains)
    (hF4 : "FORWARD" ∈ m.ipv4_filter.chains)
    (hF6 : "FORWARD" ∈ m.ipv6_filter.chains) :
    _enable_policy_chain fwid ifPref ports m = .ok
      ⟨⟨m.ipv4_filter.chains, m.ipv4_filter.rules ++
          ports.map (fun p => ("FORWARD", defaultJumpRule "-o" ifPref p)) ++
          ports.map (fun p => ("FORWARD", defaultJumpRule "-i" ifPref p))⟩,
       ⟨m.ipv6_filter.chains, m.ipv6_filter.rules ++
          ports.map (fun p => ("FORWARD", defaultJumpRule "-o" ifPref p)) ++
          ports.map (fun p => ("FORWARD", defaultJumpRule "-i" ifPref p))⟩,
       m.netns⟩ := by
  obtain ⟨⟨c4, r4⟩, ⟨c6, r6⟩, ns⟩ := m
  dsimp only at h4i h4o h6i h6o hF4 hF6
  unfold _enable_policy_chain
  dsimp only [IptMgr.filterTable]
  rw [if_neg h4i, pure_bind_ex, if_neg h4o, pure_bind_ex, if_neg h6i,
    pure_bind_ex, if_neg h6o, pure_bind_ex]
  rw [addJumpLoopBoth_eq _ ports ⟨⟨c4, r4⟩, ⟨c6, r6⟩, ns⟩ hF4 hF6, ok_bind]
  dsimp only
  rw [addJumpLoopBoth_eq _ ports
      ⟨⟨c4, r4 ++ List.map (fun p => ("FORWARD",
          defaultJumpRule "-o" ifPref p)) ports⟩,
       ⟨c6, r6 ++ List.map (fun p => ("FORWARD",
          defaultJumpRule "-o" ifPref p)) ports⟩,
       ns⟩ hF4 hF6]

/-- Membership in `if P then [p, c] else []`. -/
lemma mem_ite_pair {α} (r p c : α) (P : Prop) [Decidable P] :
    (r ∈ if P then [p, c] else []) ↔ P ∧ (r = p ∨ r = c) := by
  split_ifs with h <;> simp [h]

/-- Membership in the changed-rule pairs of one direction. -/
lemma mem_changedPairs (r : FwRule) (L1 L2 : List FwRule) :
    r ∈ changedPairs L1 L2 ↔
      ∃ p, p ∈ L1 ∧ ∃ c, c ∈ L2 ∧
        (p.id = c.id ∧ p ≠ c) ∧ (r = p ∨ r = c) := by
  simp [changedPairs, List.mem_flatMap, mem_ite_pair]

/-- C7: an allow/tcp/destination-port-80 rule with no other optional field
translates to exactly the protocol match, the destination-port match and the
accept verb (empty placeholders for the unset source-port and address
arguments); and in general a port matcher is emitted iff the protocol is tcp
or udp and the port field is set. -/
theorem claim_C7 :
    (∀ r : FwRule, r.action = some "allow" → r.protocol = some "tcp" →
      r.destination_port = some "80" → r.source_port = none →
      r.source_ip_address = none → r.destination_ip_address = none →
      _convert_fwaas_to_iptables_rule r =
        .ok "-p tcp --dport 80    -j ACCEPT") ∧
    (∀ (d : String) (proto port : Option String),
      _port_arg d proto port ≠ "" ↔
        ((proto = some "udp" ∨ proto = some "tcp") ∧ truthy port = true)) := by
  constructor
  · intro r h1 h2 h3 h4 h5 h6
    simp [_convert_fwaas_to_iptables_rule, FWAAS_TO_IPTABLE_ACTION_MAP,
      h1, h2, h3, h4, h5, h6, _protocol_arg, _port_arg, _ip_prefix_arg,
      _action_arg, truthy]
    rfl
  · intro d proto port
    constructor
    · intro h
      by_cases hc : ((proto == some "udp" || proto == some "tcp") &&
          truthy port : Bool) = true
      · simp only [Bool.and_eq_true, Bool.or_eq_true, beq_iff_eq] at hc
        exact ⟨hc.1, hc.2⟩
      · exfalso
        apply h
        unfold _port_arg
        rw [Bool.not_eq_true] at hc
        rw [hc]
        rfl
    · rintro ⟨hp, ht⟩ h
      have hc : ((proto == some "udp" || proto == some "tcp") &&
          truthy port : Bool) = true := by
        rcases hp with hp | hp <;> simp [hp, ht]
      unfold _port_arg at h
      rw [hc] at h
      simp only [Bool.not_true, Bool.false_eq_true, if_false] at h
      have h2 := congrArg String.data h
      simp [String.data_append] at h2


/-- C4: the rule diff is computed independently per direction: a rule occurs
in the changed set iff some previous rule and some current rule of the same
direction share its id with differing content, and both the old and the new
version are included.  On the example (previous `r1` = tcp/80, current `r1`
= udp/53) the diff is changed = {old r1, new r1}, added = removed = ∅, and
an update issues per target exactly two filtered conntrack flushes, one
matching (tcp, 80) and one matching (udp, 53). -/
theorem claim_C4 :
    (∀ (pre cur : Firewall) (r : FwRule),
      r ∈ _find_changed_rules pre cur ↔
        ∃ p c,
          ((p ∈ pre.egress_rule_list ∧ c ∈ cur.egress_rule_list) ∨
           (p ∈ pre.ingress_rule_list ∧ c ∈ cur.ingress_rule_list)) ∧
          p.id = c.id ∧ p ≠ c ∧ (r = p ∨ r = c)) ∧
    _find_changed_rules exPreFw exCurFw = [exRulePre, exRuleCur] ∧
    _find_new_rules exPreFw exCurFw = [] ∧
    _find_removed_rules exPreFw exCurFw = [] ∧
    (match update_firewall_group "legacy" [freshEntry] exCurFw
        ⟨some exPreFw⟩ with
      | .ok res => res.2.2
      | .error _ => []) =
      [["ip", "netns", "exec", "qrouter-1", "conntrack", "-D",
        "-p", "tcp", "-f", "ipv4", "--dport", "80"],
       ["ip", "netns", "exec", "qrouter-1", "conntrack", "-D",
        "-p", "udp", "-f", "ipv4", "--dport", "53"]] := by
  refine ⟨fun pre cur r => ?_, by decide, by decide, by decide, by decide⟩
  rw [_find_changed_rules, List.mem_append, mem_changedPairs, mem_changedPairs]
  constructor
  · rintro (⟨p, hp, c, hc, hpc, hr⟩ | ⟨p, hp, c, hc, hpc, hr⟩)
    · exact ⟨p, c, Or.inl ⟨hp, hc⟩, hpc.1, hpc.2, hr⟩
    · exact ⟨p, c, Or.inr ⟨hp, hc⟩, hpc.1, hpc.2, hr⟩
  · rintro ⟨p, c, (⟨hp, hc⟩ | ⟨hp, hc⟩), hid, hne, hr⟩
    · exact Or.inl ⟨p, hp, c, hc, ⟨hid, hne⟩, hr⟩
    · exact Or.inr ⟨p, hp, c, hc, ⟨hid, hne⟩, hr⟩


/-- C7 witness: the concrete allow/tcp/80 rule. -/
theorem claim_C7_witness :
    _convert_fwaas_to_iptables_rule
      { baseRule with
        protocol := some "tcp", destination_port := some "80" } =
      .ok "-p tcp --dport 80    -j ACCEPT" :=
  claim_C7.1 _ rfl rfl rfl rfl rfl rfl

/-- C1 counterexample: the driver keeps a single snapshot slot, not one per
firewall-group id.  After creating group `B` (snapshot records `B`) a
successful create of the distinct group `A` erases `B`'s recorded
last-applied snapshot, contradicting the claim that an apply of `A` leaves
`B`'s snapshot unchanged. -/
theorem claim_C1_counterexample :
    specSnapshotFor stAfterCreateB "B" = some fwB ∧
    (create_firewall_group "legacy" alAfterCreateB fwA
      stAfterCreateB).isOk = true ∧
    stAfterCreateBA.pre_firewall = some fwA ∧
    specSnapshotFor stAfterCreateBA "B" = none ∧
    fwA.id ≠ fwB.id := by decide

/-- C1 amended: the driver persists one shared last-applied snapshot slot:
every successful admin-up create and every successful update overwrites the
slot with the applied firewall, regardless of which group the slot
previously recorded; a later update therefore diffs against the last applied
firewall of any group. -/
theorem claim_C1 :
    (∀ (am : String) (al : List ApplyEntry) (fw : Firewall)
        (st : DriverState) (res : OpResult),
      fw.admin_state_up = true →
      create_firewall_group am al fw st = .ok res →
      res.2.1.pre_firewall = some fw) ∧
    (∀ (am : String) (al : List ApplyEntry) (fw : Firewall)
        (st : DriverState) (res : OpResult),
      update_firewall_group am al fw st = .ok res →
      res.2.1.pre_firewall = some fw) := by
  constructor
  · intro am al fw st res hadmin hok
    unfold create_firewall_group at hok
    rw [hadmin] at hok
    simp only [if_pos] at hok
    split at hok
    · cases hok; rfl
    · cases hok
  · intro am al fw st res hok
    unfold update_firewall_group at hok
    by_cases hadmin : fw.admin_state_up = true
    · rw [hadmin] at hok
      simp only [if_pos] at hok
      split at hok
      · cases hok; rfl
      · cases hok
    · rw [Bool.not_eq_true] at hadmin
      rw [hadmin] at hok
      simp only [Bool.false_eq_true, if_false] at hok
      split at hok
      · cases hok; rfl
      · cases hok

/-- C1 witness: a successful create of `A` over a slot holding `B` leaves
the slot recording `A`. -/
theorem claim_C1_witness : c1WitnessRes.2.1.pre_firewall = some fwA :=
  claim_C1.1 "legacy" [freshEntry] fwA ⟨some fwB⟩ c1WitnessRes rfl (by decide)

/-- C6 counterexample: a successful admin-down create does **not** snapshot
the applied firewall: starting with an empty slot, the slot is still empty
afterwards rather than holding the passed firewall. -/
theorem claim_C6_counterexample :
    (create_firewall_group "legacy" [freshEntry] fwAdown ⟨none⟩).isOk = true ∧
    (match create_firewall_group "legacy" [freshEntry] fwAdown ⟨none⟩ with
      | .ok res => res.2.1.pre_firewall
      | .error _ => some fwAdown) = none := by decide

/-- C6 amended: a successful create snapshots the applied firewall only in
the adminStateUp=true branch; in the adminStateUp=false branch (default
policy applied) the snapshot slot is left unchanged. -/
theorem claim_C6 :
    (∀ (am : String) (al : List ApplyEntry) (fw : Firewall)
        (st : DriverState) (res : OpResult),
      fw.admin_state_up = true →
      create_firewall_group am al fw st = .ok res →
      res.2.1.pre_firewall = some fw) ∧
    (∀ (am : String) (al : List ApplyEntry) (fw : Firewall)
        (st : DriverState) (res : OpResult),
      fw.admin_state_up = false →
      create_firewall_group am al fw st = .ok res →
      res.2.1 = st) := by
  constructor
  · intro am al fw st res hadmin hok
    unfold create_firewall_group at hok
    rw [hadmin] at hok
    simp only [if_pos] at hok
    split at hok
    · cases hok; rfl
    · cases hok
  · intro am al fw st res hadmin hok
    unfold create_firewall_group at hok
    rw [hadmin] at hok
    simp only [Bool.false_eq_true, if_false] at hok
    unfold apply_default_policy at hok
    split at hok
    · cases hok; rfl
    · cases hok

/-- C6 witness: an admin-down create over a slot holding `fwB` leaves the
slot holding `fwB`. -/
theorem claim_C6_witness : c6WitnessRes.2.1 = (⟨some fwB⟩ : DriverState) :=
  claim_C6.2 "legacy" [freshEntry] fwAdown ⟨some fwB⟩ c6WitnessRes rfl
    (by decide)

/-- C8: every error any of the four public operations surfaces is the single
generic driver-internal error carrying the driver name — the specific
low-level failure kind is never observable by callers. -/
theorem claim_C8 :
    (∀ (am : String) (al : List ApplyEntry) (fw : Firewall)
        (st : DriverState) (e : FwErr),
      create_firewall_group am al fw st = .error e →
      e = .firewallInternalDriverError FWAAS_DRIVER_NAME) ∧
    (∀ (am : String) (al : List ApplyEntry) (fw : Firewall)
        (st : DriverState) (e : FwErr),
      update_firewall_group am al fw st = .error e →
      e = .firewallInternalDriverError FWAAS_DRIVER_NAME) ∧
    (∀ (am : String) (al : List ApplyEntry) (fw : Firewall)
        (st : DriverState) (e : FwErr),
      delete_firewall_group am al fw st = .error e →
      e = .firewallInternalDriverError FWAAS_DRIVER_NAME) ∧
    (∀ (am : String) (al : List ApplyEntry) (fw : Firewall)
        (st : DriverState) (e : FwErr),
      apply_default_policy am al fw st = .error e →
      e = .firewallInternalDriverError FWAAS_DRIVER_NAME) := by
  have hdef : ∀ (am : String) (al : List ApplyEntry) (fw : Firewall)
      (st : DriverState) (e : FwErr),
      apply_default_policy am al fw st = .error e →
      e = .firewallInternalDriverError FWAAS_DRIVER_NAME := by
    intro am al fw st e hok
    unfold apply_default_policy at hok
    split at hok
    · cases hok
    · cases hok; rfl
  refine ⟨?_, ?_, ?_, hdef⟩
  · intro am al fw st e hok
    unfold create_firewall_group at hok
    by_cases hadmin : fw.admin_state_up = true
    · rw [hadmin] at hok
      simp only [if_pos] at hok
      split at hok
      · cases hok
      · cases hok; rfl
    · rw [Bool.not_eq_true] at hadmin
      rw [hadmin] at hok
      simp only [Bool.false_eq_true, if_false] at hok
      exact hdef am al fw st e hok
  · intro am al fw st e hok
    unfold update_firewall_group at hok
    by_cases hadmin : fw.admin_state_up = true
    · rw [hadmin] at hok
      simp only [if_pos] at hok
      split at hok
      · cases hok
      · cases hok; rfl
    · rw [Bool.not_eq_true] at hadmin
      rw [hadmin] at hok
      simp only [Bool.false_eq_true, if_false] at hok
      cases hapd : apply_default_policy am al fw st with
      | ok r => rw [hapd] at hok; cases hok
      | error e2 =>
        rw [hapd] at hok
        injection hok with h
        subst h
        exact hdef am al fw st _ hapd
  · intro am al fw st e hok
    unfold delete_firewall_group at hok
    cases hok

/-- C8 witness: creating over a manager lacking the `FORWARD` chain fails,
and the surfaced error is the generic driver-internal error. -/
theorem claim_C8_witness :
    c8Err = .firewallInternalDriverError FWAAS_DRIVER_NAME :=
  claim_C8.1 "legacy" [noForwardEntry] fwA ⟨none⟩ c8Err (by decide)

set_option maxHeartbeats 2000000 in
/-- C3: for every firewall group (well-formed target state, valid rule
actions, rule ip_versions in {4, 6}), the per-target chain synthesis
succeeds and each per-group chain contains, in this exact order: the
invalid-state drop rule, the established/related accept rule, then exactly
the enabled rules of that direction whose ip_version matches that chain's IP
version, translated one-for-one in policy order; disabled and
other-version rules contribute nothing. -/
theorem claim_C3 :
    ∀ (fw : Firewall) (ifPref : String) (ports : List String) (m : IptMgr),
    "FORWARD" ∈ m.ipv4_filter.chains →
    "FORWARD" ∈ m.ipv6_filter.chains →
    (∀ cr ∈ m.ipv4_filter.rules, cr.1 ∈ m.ipv4_filter.chains) →
    (∀ cr ∈ m.ipv6_filter.rules, cr.1 ∈ m.ipv6_filter.chains) →
    (∀ r ∈ fw.ingress_rule_list ++ fw.egress_rule_list,
      r.enabled = true → validAction r) →
    (∀ r ∈ fw.ingress_rule_list ++ fw.egress_rule_list,
      r.ip_version = 4 ∨ r.ip_version = 6) →
    ∃ m', setupOnTarget fw ifPref ports m = .ok m' ∧
      m'.ipv4_filter.chainRules (_get_chain_name fw.id .v4 .ingress) =
        [_drop_invalid_packets_rule, _allow_established_rule] ++
          (fw.ingress_rule_list.filter
            (fun r => r.enabled && r.ip_version == 4)).map convOk ∧
      m'.ipv4_filter.chainRules (_get_chain_name fw.id .v4 .egress) =
        [_drop_invalid_packets_rule, _allow_established_rule] ++
          (fw.egress_rule_list.filter
            (fun r => r.enabled && r.ip_version == 4)).map convOk ∧
      m'.ipv6_filter.chainRules (_get_chain_name fw.id .v6 .ingress) =
        [_drop_invalid_packets_rule, _allow_established_rule] ++
          (fw.ingress_rule_list.filter
            (fun r => r.enabled && r.ip_version == 6)).map convOk ∧
      m'.ipv6_filter.chainRules (_get_chain_name fw.id .v6 .egress) =
        [_drop_invalid_packets_rule, _allow_established_rule] ++
          (fw.egress_rule_list.filter
            (fun r => r.enabled && r.ip_version == 6)).map convOk := by
  intro fw ifPref ports m hF4 hF6 hwf4 hwf6 hval hver
  have hvalI : ∀ r ∈ fw.ingress_rule_list, r.enabled = true → validAction r :=
    fun r hr he => hval r (List.mem_append.mpr (Or.inl hr)) he
  have hvalE : ∀ r ∈ fw.egress_rule_list, r.enabled = true → validAction r :=
    fun r hr he => hval r (List.mem_append.mpr (Or.inr hr)) he
  have hFA : "FORWARD" ∈ (((m.ipv4_filter.remove_chain (_get_chain_name fw.id IpVer.v4 Dir.ingress)).remove_chain (_get_chain_name fw.id IpVer.v4 Dir.egress)).remove_chain FWAAS_DEFAULT_CHAIN).chains := by
    rw [mem_remove_chain_chains, mem_remove_chain_chains,
      mem_remove_chain_chains]
    refine ⟨⟨⟨hF4, ?_⟩, ?_⟩, ?_⟩
    · exact Ne.symm (get_chain_name_ne_FORWARD fw.id IpVer.v4 Dir.ingress)
    · exact Ne.symm (get_chain_name_ne_FORWARD fw.id IpVer.v4 Dir.egress)
    · decide
  have hFB : "FORWARD" ∈ (((m.ipv6_filter.remove_chain (_get_chain_name fw.id IpVer.v6 Dir.ingress)).remove_chain (_get_chain_name fw.id IpVer.v6 Dir.egress)).remove_chain FWAAS_DEFAULT_CHAIN).chains := by
    rw [mem_remove_chain_chains, mem_remove_chain_chains,
      mem_remove_chain_chains]
    refine ⟨⟨⟨hF6, ?_⟩, ?_⟩, ?_⟩
    · exact Ne.symm (get_chain_name_ne_FORWARD fw.id IpVer.v6 Dir.ingress)
    · exact Ne.symm (get_chain_name_ne_FORWARD fw.id IpVer.v6 Dir.egress)
    · decide
  have hm4i : (_get_chain_name fw.id IpVer.v4 Dir.ingress) ∈ (chainsAfterAdd (chainsAfterAdd (chainsAfterAdd (((m.ipv4_filter.remove_chain (_get_chain_name fw.id IpVer.v4 Dir.ingress)).remove_chain (_get_chain_name fw.id IpVer.v4 Dir.egress)).remove_chain FWAAS_DEFAULT_CHAIN).chains FWAAS_DEFAULT_CHAIN) (_get_chain_name fw.id IpVer.v4 Dir.ingress)) (_get_chain_name fw.id IpVer.v4 Dir.egress)) :=
    mem_chainsAfterAdd_of_mem _ _ _ (mem_chainsAfterAdd_self _ _)
  have hm4o : (_get_chain_name fw.id IpVer.v4 Dir.egress) ∈ (chainsAfterAdd (chainsAfterAdd (chainsAfterAdd (((m.ipv4_filter.remove_chain (_get_chain_name fw.id IpVer.v4 Dir.ingress)).remove_chain (_get_chain_name fw.id IpVer.v4 Dir.egress)).remove_chain FWAAS_DEFAULT_CHAIN).chains FWAAS_DEFAULT_CHAIN) (_get_chain_name fw.id IpVer.v4 Dir.ingress)) (_get_chain_name fw.id IpVer.v4 Dir.egress)) := mem_chainsAfterAdd_self _ _
  have hm6i : (_get_chain_name fw.id IpVer.v6 Dir.ingress) ∈ (chainsAfterAdd (chainsAfterAdd (chainsAfterAdd (((m.ipv6_filter.remove_chain (_get_chain_name fw.id IpVer.v6 Dir.ingress)).remove_chain (_get_chain_name fw.id IpVer.v6 Dir.egress)).remove_chain FWAAS_DEFAULT_CHAIN).chains FWAAS_DEFAULT_CHAIN) (_get_chain_name fw.id IpVer.v6 Dir.ingress)) (_get_chain_name fw.id IpVer.v6 Dir.egress)) :=
    mem_chainsAfterAdd_of_mem _ _ _ (mem_chainsAfterAdd_self _ _)
  have hm6o : (_get_chain_name fw.id IpVer.v6 Dir.egress) ∈ (chainsAfterAdd (chainsAfterAdd (chainsAfterAdd (((m.ipv6_filter.remove_chain (_get_chain_name fw.id IpVer.v6 Dir.ingress)).remove_chain (_get_chain_name fw.id IpVer.v6 Dir.egress)).remove_chain FWAAS_DEFAULT_CHAIN).chains FWAAS_DEFAULT_CHAIN) (_get_chain_name fw.id IpVer.v6 Dir.ingress)) (_get_chain_name fw.id IpVer.v6 Dir.egress)) := mem_chainsAfterAdd_self _ _
  have hF4c : "FORWARD" ∈ (chainsAfterAdd (chainsAfterAdd (chainsAfterAdd (((m.ipv4_filter.remove_chain (_get_chain_name fw.id IpVer.v4 Dir.ingress)).remove_chain (_get_chain_name fw.id IpVer.v4 Dir.egress)).remove_chain FWAAS_DEFAULT_CHAIN).chains FWAAS_DEFAULT_CHAIN) (_get_chain_name fw.id IpVer.v4 Dir.ingress)) (_get_chain_name fw.id IpVer.v4 Dir.egress)) :=
    mem_chainsAfterAdd_of_mem _ _ _ (mem_chainsAfterAdd_of_mem _ _ _
      (mem_chainsAfterAdd_of_mem _ _ _ hFA))
  have hF6c : "FORWARD" ∈ (chainsAfterAdd (chainsAfterAdd (chainsAfterAdd (((m.ipv6_filter.remove_chain (_get_chain_name fw.id IpVer.v6 Dir.ingress)).remove_chain (_get_chain_name fw.id IpVer.v6 Dir.egress)).remove_chain FWAAS_DEFAULT_CHAIN).chains FWAAS_DEFAULT_CHAIN) (_get_chain_name fw.id IpVer.v6 Dir.ingress)) (_get_chain_name fw.id IpVer.v6 Dir.egress)) :=
    mem_chainsAfterAdd_of_mem _ _ _ (mem_chainsAfterAdd_of_mem _ _ _
      (mem_chainsAfterAdd_of_mem _ _ _ hFB))
  have hrun : setupOnTarget fw ifPref ports m = .ok ⟨⟨(chainsAfterAdd (chainsAfterAdd (chainsAfterAdd (((m.ipv4_filter.remove_chain (_get_chain_name fw.id IpVer.v4 Dir.ingress)).remove_chain (_get_chain_name fw.id IpVer.v4 Dir.egress)).remove_chain FWAAS_DEFAULT_CHAIN).chains FWAAS_DEFAULT_CHAIN) (_get_chain_name fw.id IpVer.v4 Dir.ingress)) (_get_chain_name fw.id IpVer.v4 Dir.egress)), (((((((m.ipv4_filter.remove_chain (_get_chain_name fw.id IpVer.v4 Dir.ingress)).remove_chain (_get_chain_name fw.id IpVer.v4 Dir.egress)).remove_chain FWAAS_DEFAULT_CHAIN).rules ++ [(FWAAS_DEFAULT_CHAIN, "-j DROP")]) ++ [((_get_chain_name fw.id IpVer.v4 Dir.ingress), _drop_invalid_packets_rule), ((_get_chain_name fw.id IpVer.v4 Dir.ingress), _allow_established_rule), ((_get_chain_name fw.id IpVer.v4 Dir.egress), _drop_invalid_packets_rule), ((_get_chain_name fw.id IpVer.v4 Dir.egress), _allow_established_rule)]) ++ (List.map (fun r => ((_get_chain_name fw.id IpVer.v4 Dir.ingress), convOk r)) (List.filter (fun r => r.enabled && r.ip_version == 4) fw.ingress_rule_list))) ++ (List.map (fun r => ((_get_chain_name fw.id IpVer.v4 Dir.egress), convOk r)) (List.filter (fun r => r.enabled && r.ip_version == 4) fw.egress_rule_list))) ++ (List.map (fun p => ("FORWARD", policyJumpRule Dir.ingress ifPref p (_get_chain_name fw.id IpVer.v4 Dir.ingress))) ports) ++ (List.map (fun p => ("FORWARD", policyJumpRule Dir.egress ifPref p (_get_chain_name fw.id IpVer.v4 Dir.egress))) ports) ++ (List.map (fun p => ("FORWARD", defaultJumpRule "-o" ifPref p)) ports) ++ (List.map (fun p => ("FORWARD", defaultJumpRule "-i" ifPref p)) ports)⟩, ⟨(chainsAfterAdd (chainsAfterAdd (chainsAfterAdd (((m.ipv6_filter.remove_chain (_get_chain_name fw.id IpVer.v6 Dir.ingress)).remove_chain (_get_chain_name fw.id IpVer.v6 Dir.egress)).remove_chain FWAAS_DEFAULT_CHAIN).chains FWAAS_DEFAULT_CHAIN) (_get_chain_name fw.id IpVer.v6 Dir.ingress)) (_get_chain_name fw.id IpVer.v6 Dir.egress)), (((((((m.ipv6_filter.remove_chain (_get_chain_name fw.id IpVer.v6 Dir.ingress)).remove_chain (_get_chain_name fw.id IpVer.v6 Dir.egress)).remove_chain FWAAS_DEFAULT_CHAIN).rules ++ [(FWAAS_DEFAULT_CHAIN, "-j DROP")]) ++ [((_get_chain_name fw.id IpVer.v6 Dir.ingress), _drop_invalid_packets_rule), ((_get_chain_name fw.id IpVer.v6 Dir.ingress), _allow_established_rule), ((_get_chain_name fw.id IpVer.v6 Dir.egress), _drop_invalid_packets_rule), ((_get_chain_name fw.id IpVer.v6 Dir.egress), _allow_established_rule)]) ++ (List.map (fun r => ((_get_chain_name fw.id IpVer.v6 Dir.ingress), convOk r)) (List.filter (fun r => r.enabled && !(r.ip_version == 4)) fw.ingress_rule_list))) ++ (List.map (fun r => ((_get_chain_name fw.id IpVer.v6 Dir.egress), convOk r)) (List.filter (fun r => r.enabled && !(r.ip_version == 4)) fw.egress_rule_list))) ++ (List.map (fun p => ("FORWARD", policyJumpRule Dir.ingress ifPref p (_get_chain_name fw.id IpVer.v6 Dir.ingress))) ports) ++ (List.map (fun p => ("FORWARD", policyJumpRule Dir.egress ifPref p (_get_chain_name fw.id IpVer.v6 Dir.egress))) ports) ++ (List.map (fun p => ("FORWARD", defaultJumpRule "-o" ifPref p)) ports) ++ (List.map (fun p => ("FORWARD", defaultJumpRule "-i" ifPref p)) ports)⟩, m.netns⟩ := by
    unfold setupOnTarget
    dsimp only
    rw [remove_chains_eq]
    rw [remove_default_chains_eq]
    dsimp only
    rw [add_default_policy_eq, ok_bind]
    dsimp only
    unfold _setup_chains
    rw [addDefaultSeeded_eq, ok_bind]
    dsimp only
    rw [addPolicyRules_eq fw.id Dir.ingress fw.ingress_rule_list
      ⟨⟨(chainsAfterAdd (chainsAfterAdd (chainsAfterAdd (((m.ipv4_filter.remove_chain (_get_chain_name fw.id IpVer.v4 Dir.ingress)).remove_chain (_get_chain_name fw.id IpVer.v4 Dir.egress)).remove_chain FWAAS_DEFAULT_CHAIN).chains FWAAS_DEFAULT_CHAIN) (_get_chain_name fw.id IpVer.v4 Dir.ingress)) (_get_chain_name fw.id IpVer.v4 Dir.egress)), (((((m.ipv4_filter.remove_chain (_get_chain_name fw.id IpVer.v4 Dir.ingress)).remove_chain (_get_chain_name fw.id IpVer.v4 Dir.egress)).remove_chain FWAAS_DEFAULT_CHAIN).rules ++ [(FWAAS_DEFAULT_CHAIN, "-j DROP")]) ++ [((_get_chain_name fw.id IpVer.v4 Dir.ingress), _drop_invalid_packets_rule), ((_get_chain_name fw.id IpVer.v4 Dir.ingress), _allow_established_rule), ((_get_chain_name fw.id IpVer.v4 Dir.egress), _drop_invalid_packets_rule), ((_get_chain_name fw.id IpVer.v4 Dir.egress), _allow_established_rule)])⟩, ⟨(chainsAfterAdd (chainsAfterAdd (chainsAfterAdd (((m.ipv6_filter.remove_chain (_get_chain_name fw.id IpVer.v6 Dir.ingress)).remove_chain (_get_chain_name fw.id IpVer.v6 Dir.egress)).remove_chain FWAAS_DEFAULT_CHAIN).chains FWAAS_DEFAULT_CHAIN) (_get_chain_name fw.id IpVer.v6 Dir.ingress)) (_get_chain_name fw.id IpVer.v6 Dir.egress)), (((((m.ipv6_filter.remove_chain (_get_chain_name fw.id IpVer.v6 Dir.ingress)).remove_chain (_get_chain_name fw.id IpVer.v6 Dir.egress)).remove_chain FWAAS_DEFAULT_CHAIN).rules ++ [(FWAAS_DEFAULT_CHAIN, "-j DROP")]) ++ [((_get_chain_name fw.id IpVer.v6 Dir.ingress), _drop_invalid_packets_rule), ((_get_chain_name fw.id IpVer.v6 Dir.ingress), _allow_established_rule), ((_get_chain_name fw.id IpVer.v6 Dir.egress), _drop_invalid_packets_rule), ((_get_chain_name fw.id IpVer.v6 Dir.egress), _allow_established_rule)])⟩, m.netns⟩ hm4i hm6i hvalI, ok_bind]
    dsimp only
    rw [addPolicyRules_eq fw.id Dir.egress fw.egress_rule_list
      ⟨⟨(chainsAfterAdd (chainsAfterAdd (chainsAfterAdd (((m.ipv4_filter.remove_chain (_get_chain_name fw.id IpVer.v4 Dir.ingress)).remove_chain (_get_chain_name fw.id IpVer.v4 Dir.egress)).remove_chain FWAAS_DEFAULT_CHAIN).chains FWAAS_DEFAULT_CHAIN) (_get_chain_name fw.id IpVer.v4 Dir.ingress)) (_get_chain_name fw.id IpVer.v4 Dir.egress)), ((((((m.ipv4_filter.remove_chain (_get_chain_name fw.id IpVer.v4 Dir.ingress)).remove_chain (_get_chain_name fw.id IpVer.v4 Dir.egress)).remove_chain FWAAS_DEFAULT_CHAIN).rules ++ [(FWAAS_DEFAULT_CHAIN, "-j DROP")]) ++ [((_get_chain_name fw.id IpVer.v4 Dir.ingress), _drop_invalid_packets_rule), ((_get_chain_name fw.id IpVer.v4 Dir.ingress), _allow_established_rule), ((_get_chain_name fw.id IpVer.v4 Dir.egress), _drop_invalid_packets_rule), ((_get_chain_name fw.id IpVer.v4 Dir.egress), _allow_established_rule)]) ++ (List.map (fun r => ((_get_chain_name fw.id IpVer.v4 Dir.ingress), convOk r)) (List.filter (fun r => r.enabled && r.ip_version == 4) fw.ingress_rule_list)))⟩, ⟨(chainsAfterAdd (chainsAfterAdd (chainsAfterAdd (((m.ipv6_filter.remove_chain (_get_chain_name fw.id IpVer.v6 Dir.ingress)).remove_chain (_get_chain_name fw.id IpVer.v6 Dir.egress)).remove_chain FWAAS_DEFAULT_CHAIN).chains FWAAS_DEFAULT_CHAIN) (_get_chain_name fw.id IpVer.v6 Dir.ingress)) (_get_chain_name fw.id IpVer.v6 Dir.egress)), ((((((m.ipv6_filter.remove_chain (_get_chain_name fw.id IpVer.v6 Dir.ingress)).remove_chain (_get_chain_name fw.id IpVer.v6 Dir.egress)).remove_chain FWAAS_DEFAULT_CHAIN).rules ++ [(FWAAS_DEFAULT_CHAIN, "-j DROP")]) ++ [((_get_chain_name fw.id IpVer.v6 Dir.ingress), _drop_invalid_packets_rule), ((_get_chain_name fw.id IpVer.v6 Dir.ingress), _allow_established_rule), ((_get_chain_name fw.id IpVer.v6 Dir.egress), _drop_invalid_packets_rule), ((_get_chain_name fw.id IpVer.v6 Dir.egress), _allow_established_rule)]) ++ (List.map (fun r => ((_get_chain_name fw.id IpVer.v6 Dir.ingress), convOk r)) (List.filter (fun r => r.enabled && !(r.ip_version == 4)) fw.ingress_rule_list)))⟩, m.netns⟩ hm4o hm6o hvalE, ok_bind]
    dsimp only
    rw [enable_all_present fw.id ifPref ports
      ⟨⟨(chainsAfterAdd (chainsAfterAdd (chainsAfterAdd (((m.ipv4_filter.remove_chain (_get_chain_name fw.id IpVer.v4 Dir.ingress)).remove_chain (_get_chain_name fw.id IpVer.v4 Dir.egress)).remove_chain FWAAS_DEFAULT_CHAIN).chains FWAAS_DEFAULT_CHAIN) (_get_chain_name fw.id IpVer.v4 Dir.ingress)) (_get_chain_name fw.id IpVer.v4 Dir.egress)), (((((((m.ipv4_filter.remove_chain (_get_chain_name fw.id IpVer.v4 Dir.ingress)).remove_chain (_get_chain_name fw.id IpVer.v4 Dir.egress)).remove_chain FWAAS_DEFAULT_CHAIN).rules ++ [(FWAAS_DEFAULT_CHAIN, "-j DROP")]) ++ [((_get_chain_name fw.id IpVer.v4 Dir.ingress), _drop_invalid_packets_rule), ((_get_chain_name fw.id IpVer.v4 Dir.ingress), _allow_established_rule), ((_get_chain_name fw.id IpVer.v4 Dir.egress), _drop_invalid_packets_rule), ((_get_chain_name fw.id IpVer.v4 Dir.egress), _allow_established_rule)]) ++ (List.map (fun r => ((_get_chain_name fw.id IpVer.v4 Dir.ingress), convOk r)) (List.filter (fun r => r.enabled && r.ip_version == 4) fw.ingress_rule_list))) ++ (List.map (fun r => ((_get_chain_name fw.id IpVer.v4 Dir.egress), convOk r)) (List.filter (fun r => r.enabled && r.ip_version == 4) fw.egress_rule_list)))⟩, ⟨(chainsAfterAdd (chainsAfterAdd (chainsAfterAdd (((m.ipv6_filter.remove_chain (_get_chain_name fw.id IpVer.v6 Dir.ingress)).remove_chain (_get_chain_name fw.id IpVer.v6 Dir.egress)).remove_chain FWAAS_DEFAULT_CHAIN).chains FWAAS_DEFAULT_CHAIN) (_get_chain_name fw.id IpVer.v6 Dir.ingress)) (_get_chain_name fw.id IpVer.v6 Dir.egress)), (((((((m.ipv6_filter.remove_chain (_get_chain_name fw.id IpVer.v6 Dir.ingress)).remove_chain (_get_chain_name fw.id IpVer.v6 Dir.egress)).remove_chain FWAAS_DEFAULT_CHAIN).rules ++ [(FWAAS_DEFAULT_CHAIN, "-j DROP")]) ++ [((_get_chain_name fw.id IpVer.v6 Dir.ingress), _drop_invalid_packets_rule), ((_get_chain_name fw.id IpVer.v6 Dir.ingress), _allow_established_rule), ((_get_chain_name fw.id IpVer.v6 Dir.egress), _drop_invalid_packets_rule), ((_get_chain_name fw.id IpVer.v6 Dir.egress), _allow_established_rule)]) ++ (List.map (fun r => ((_get_chain_name fw.id IpVer.v6 Dir.ingress), convOk r)) (List.filter (fun r => r.enabled && !(r.ip_version == 4)) fw.ingress_rule_list))) ++ (List.map (fun r => ((_get_chain_name fw.id IpVer.v6 Dir.egress), convOk r)) (List.filter (fun r => r.enabled && !(r.ip_version == 4)) fw.egress_rule_list)))⟩, m.netns⟩ hm4i hm4o hm6i hm6o hF4c hF6c]
  have hiA : ∀ cr ∈ (((m.ipv4_filter.remove_chain (_get_chain_name fw.id IpVer.v4 Dir.ingress)).remove_chain (_get_chain_name fw.id IpVer.v4 Dir.egress)).remove_chain FWAAS_DEFAULT_CHAIN).rules, cr.1 ≠ (_get_chain_name fw.id IpVer.v4 Dir.ingress) := fun cr hcr =>
    no_rules_remove_chain_self m.ipv4_filter (_get_chain_name fw.id IpVer.v4 Dir.ingress) hwf4 cr
      (rules_subset_remove_chain _ _ cr (rules_subset_remove_chain _ _ cr hcr))
  have hoA : ∀ cr ∈ (((m.ipv4_filter.remove_chain (_get_chain_name fw.id IpVer.v4 Dir.ingress)).remove_chain (_get_chain_name fw.id IpVer.v4 Dir.egress)).remove_chain FWAAS_DEFAULT_CHAIN).rules, cr.1 ≠ (_get_chain_name fw.id IpVer.v4 Dir.egress) := fun cr hcr =>
    no_rules_remove_chain_self (m.ipv4_filter.remove_chain (_get_chain_name fw.id IpVer.v4 Dir.ingress))
      (_get_chain_name fw.id IpVer.v4 Dir.egress) (wf_remove_chain _ _ hwf4) cr
      (rules_subset_remove_chain _ _ cr hcr)
  have hiB : ∀ cr ∈ (((m.ipv6_filter.remove_chain (_get_chain_name fw.id IpVer.v6 Dir.ingress)).remove_chain (_get_chain_name fw.id IpVer.v6 Dir.egress)).remove_chain FWAAS_DEFAULT_CHAIN).rules, cr.1 ≠ (_get_chain_name fw.id IpVer.v6 Dir.ingress) := fun cr hcr =>
    no_rules_remove_chain_self m.ipv6_filter (_get_chain_name fw.id IpVer.v6 Dir.ingress) hwf6 cr
      (rules_subset_remove_chain _ _ cr (rules_subset_remove_chain _ _ cr hcr))
  have hoB : ∀ cr ∈ (((m.ipv6_filter.remove_chain (_get_chain_name fw.id IpVer.v6 Dir.ingress)).remove_chain (_get_chain_name fw.id IpVer.v6 Dir.egress)).remove_chain FWAAS_DEFAULT_CHAIN).rules, cr.1 ≠ (_get_chain_name fw.id IpVer.v6 Dir.egress) := fun cr hcr =>
    no_rules_remove_chain_self (m.ipv6_filter.remove_chain (_get_chain_name fw.id IpVer.v6 Dir.ingress))
      (_get_chain_name fw.id IpVer.v6 Dir.egress) (wf_remove_chain _ _ hwf6) cr
      (rules_subset_remove_chain _ _ cr hcr)
  have hfI6 : List.filter (fun r => r.enabled && !(r.ip_version == 4))
      fw.ingress_rule_list =
      List.filter (fun r => r.enabled && r.ip_version == 6)
        fw.ingress_rule_list := by
    refine List.filter_congr ?_
    intro r hr
    rcases hver r (List.mem_append.mpr (Or.inl hr)) with h | h <;> simp [h]
  have hfE6 : List.filter (fun r => r.enabled && !(r.ip_version == 4))
      fw.egress_rule_list =
      List.filter (fun r => r.enabled && r.ip_version == 6)
        fw.egress_rule_list := by
    refine List.filter_congr ?_
    intro r hr
    rcases hver r (List.mem_append.mpr (Or.inr hr)) with h | h <;> simp [h]
  refine ⟨⟨⟨(chainsAfterAdd (chainsAfterAdd (chainsAfterAdd (((m.ipv4_filter.remove_chain (_get_chain_name fw.id IpVer.v4 Dir.ingress)).remove_chain (_get_chain_name fw.id IpVer.v4 Dir.egress)).remove_chain FWAAS_DEFAULT_CHAIN).chains FWAAS_DEFAULT_CHAIN) (_get_chain_name fw.id IpVer.v4 Dir.ingress)) (_get_chain_name fw.id IpVer.v4 Dir.egress)), (((((((m.ipv4_filter.remove_chain (_get_chain_name fw.id IpVer.v4 Dir.ingress)).remove_chain (_get_chain_name fw.id IpVer.v4 Dir.egress)).remove_chain FWAAS_DEFAULT_CHAIN).rules ++ [(FWAAS_DEFAULT_CHAIN, "-j DROP")]) ++ [((_get_chain_name fw.id IpVer.v4 Dir.ingress), _drop_invalid_packets_rule), ((_get_chain_name fw.id IpVer.v4 Dir.ingress), _allow_established_rule), ((_get_chain_name fw.id IpVer.v4 Dir.egress), _drop_invalid_packets_rule), ((_get_chain_name fw.id IpVer.v4 Dir.egress), _allow_established_rule)]) ++ (List.map (fun r => ((_get_chain_name fw.id IpVer.v4 Dir.ingress), convOk r)) (List.filter (fun r => r.enabled && r.ip_version == 4) fw.ingress_rule_list))) ++ (List.map (fun r => ((_get_chain_name fw.id IpVer.v4 Dir.egress), convOk r)) (List.filter (fun r => r.enabled && r.ip_version == 4) fw.egress_rule_list))) ++ (List.map (fun p => ("FORWARD", policyJumpRule Dir.ingress ifPref p (_get_chain_name fw.id IpVer.v4 Dir.ingress))) ports) ++ (List.map (fun p => ("FORWARD", policyJumpRule Dir.egress ifPref p (_get_chain_name fw.id IpVer.v4 Dir.egress))) ports) ++ (List.map (fun p => ("FORWARD", defaultJumpRule "-o" ifPref p)) ports) ++ (List.map (fun p => ("FORWARD", defaultJumpRule "-i" ifPref p)) ports)⟩, ⟨(chainsAfterAdd (chainsAfterAdd (chainsAfterAdd (((m.ipv6_filter.remove_chain (_get_chain_name fw.id IpVer.v6 Dir.ingress)).remove_chain (_get_chain_name fw.id IpVer.v6 Dir.egress)).remove_chain FWAAS_DEFAULT_CHAIN).chains FWAAS_DEFAULT_CHAIN) (_get_chain_name fw.id IpVer.v6 Dir.ingress)) (_get_chain_name fw.id IpVer.v6 Dir.egress)), (((((((m.ipv6_filter.remove_chain (_get_chain_name fw.id IpVer.v6 Dir.ingress)).remove_chain (_get_chain_name fw.id IpVer.v6 Dir.egress)).remove_chain FWAAS_DEFAULT_CHAIN).rules ++ [(FWAAS_DEFAULT_CHAIN, "-j DROP")]) ++ [((_get_chain_name fw.id IpVer.v6 Dir.ingress), _drop_invalid_packets_rule), ((_get_chain_name fw.id IpVer.v6 Dir.ingress), _allow_established_rule), ((_get_chain_name fw.id IpVer.v6 Dir.egress), _drop_invalid_packets_rule), ((_get_chain_name fw.id IpVer.v6 Dir.egress), _allow_established_rule)]) ++ (List.map (fun r => ((_get_chain_name fw.id IpVer.v6 Dir.ingress), convOk r)) (List.filter (fun r => r.enabled && !(r.ip_version == 4)) fw.ingress_rule_list))) ++ (List.map (fun r => ((_get_chain_name fw.id IpVer.v6 Dir.egress), convOk r)) (List.filter (fun r => r.enabled && !(r.ip_version == 4)) fw.egress_rule_list))) ++ (List.map (fun p => ("FORWARD", policyJumpRule Dir.ingress ifPref p (_get_chain_name fw.id IpVer.v6 Dir.ingress))) ports) ++ (List.map (fun p => ("FORWARD", policyJumpRule Dir.egress ifPref p (_get_chain_name fw.id IpVer.v6 Dir.egress))) ports) ++ (List.map (fun p => ("FORWARD", defaultJumpRule "-o" ifPref p)) ports) ++ (List.map (fun p => ("FORWARD", defaultJumpRule "-i" ifPref p)) ports)⟩, m.netns⟩, hrun, ?_, ?_, ?_, ?_⟩
  · rw [chainRules_eq_L]
    simp only [chainRulesL_append]
    rw [chainRulesL_eq_nil_of _ _ hiA]
    have e2 : chainRulesL [(FWAAS_DEFAULT_CHAIN, "-j DROP")] (_get_chain_name fw.id IpVer.v4 Dir.ingress) = [] := by
      simp [chainRulesL,
        Ne.symm (get_chain_name_ne_default fw.id IpVer.v4 Dir.ingress)]
    have e3 : chainRulesL [((_get_chain_name fw.id IpVer.v4 Dir.ingress), _drop_invalid_packets_rule), ((_get_chain_name fw.id IpVer.v4 Dir.ingress), _allow_established_rule),
        ((_get_chain_name fw.id IpVer.v4 Dir.egress), _drop_invalid_packets_rule), ((_get_chain_name fw.id IpVer.v4 Dir.egress), _allow_established_rule)] (_get_chain_name fw.id IpVer.v4 Dir.ingress) =
        [_drop_invalid_packets_rule, _allow_established_rule] := by
      simp [chainRulesL, Ne.symm (get_chain_name_ne_dir fw.id IpVer.v4)]
    rw [e2, e3, chainRulesL_pairs_same,
      chainRulesL_pairs_other _ _ _ _
        (Ne.symm (get_chain_name_ne_dir fw.id IpVer.v4)),
      chainRulesL_pairs_other _ _ _ _
        (Ne.symm (get_chain_name_ne_FORWARD fw.id IpVer.v4 Dir.ingress)),
      chainRulesL_pairs_other _ _ _ _
        (Ne.symm (get_chain_name_ne_FORWARD fw.id IpVer.v4 Dir.ingress)),
      chainRulesL_pairs_other _ _ _ _
        (Ne.symm (get_chain_name_ne_FORWARD fw.id IpVer.v4 Dir.ingress)),
      chainRulesL_pairs_other _ _ _ _
        (Ne.symm (get_chain_name_ne_FORWARD fw.id IpVer.v4 Dir.ingress))]
    simp
  · rw [chainRules_eq_L]
    simp only [chainRulesL_append]
    rw [chainRulesL_eq_nil_of _ _ hoA]
    have e2 : chainRulesL [(FWAAS_DEFAULT_CHAIN, "-j DROP")] (_get_chain_name fw.id IpVer.v4 Dir.egress) = [] := by
      simp [chainRulesL,
        Ne.symm (get_chain_name_ne_default fw.id IpVer.v4 Dir.egress)]
    have e3 : chainRulesL [((_get_chain_name fw.id IpVer.v4 Dir.ingress), _drop_invalid_packets_rule), ((_get_chain_name fw.id IpVer.v4 Dir.ingress), _allow_established_rule),
        ((_get_chain_name fw.id IpVer.v4 Dir.egress), _drop_invalid_packets_rule), ((_get_chain_name fw.id IpVer.v4 Dir.egress), _allow_established_rule)] (_get_chain_name fw.id IpVer.v4 Dir.egress) =
        [_drop_invalid_packets_rule, _allow_established_rule] := by
      simp [chainRulesL, get_chain_name_ne_dir fw.id IpVer.v4]
    rw [e2, e3,
      chainRulesL_pairs_other _ _ _ _ (get_chain_name_ne_dir fw.id IpVer.v4),
      chainRulesL_pairs_same,
      chainRulesL_pairs_other _ _ _ _
        (Ne.symm (get_chain_name_ne_FORWARD fw.id IpVer.v4 Dir.egress)),
      chainRulesL_pairs_other _ _ _ _
        (Ne.symm (get_chain_name_ne_FORWARD fw.id IpVer.v4 Dir.egress)),
      chainRulesL_pairs_other _ _ _ _
        (Ne.symm (get_chain_name_ne_FORWARD fw.id IpVer.v4 Dir.egress)),
      chainRulesL_pairs_other _ _ _ _
        (Ne.symm (get_chain_name_ne_FORWARD fw.id IpVer.v4 Dir.egress))]
    simp
  · rw [chainRules_eq_L]
    simp only [chainRulesL_append]
    rw [chainRulesL_eq_nil_of _ _ hiB]
    have e2 : chainRulesL [(FWAAS_DEFAULT_CHAIN, "-j DROP")] (_get_chain_name fw.id IpVer.v6 Dir.ingress) = [] := by
      simp [chainRulesL,
        Ne.symm (get_chain_name_ne_default fw.id IpVer.v6 Dir.ingress)]
    have e3 : chainRulesL [((_get_chain_name fw.id IpVer.v6 Dir.ingress), _drop_invalid_packets_rule), ((_get_chain_name fw.id IpVer.v6 Dir.ingress), _allow_established_rule),
        ((_get_chain_name fw.id IpVer.v6 Dir.egress), _drop_invalid_packets_rule), ((_get_chain_name fw.id IpVer.v6 Dir.egress), _allow_established_rule)] (_get_chain_name fw.id IpVer.v6 Dir.ingress) =
        [_drop_invalid_packets_rule, _allow_established_rule] := by
      simp [chainRulesL, Ne.symm (get_chain_name_ne_dir fw.id IpVer.v6)]
    rw [e2, e3, chainRulesL_pairs_same,
      chainRulesL_pairs_other _ _ _ _
        (Ne.symm (get_chain_name_ne_dir fw.id IpVer.v6)),
      chainRulesL_pairs_other _ _ _ _
        (Ne.symm (get_chain_name_ne_FORWARD fw.id IpVer.v6 Dir.ingress)),
      chainRulesL_pairs_other _ _ _ _
        (Ne.symm (get_chain_name_ne_FORWARD fw.id IpVer.v6 Dir.ingress)),
      chainRulesL_pairs_other _ _ _ _
        (Ne.symm (get_chain_name_ne_FORWARD fw.id IpVer.v6 Dir.ingress)),
      chainRulesL_pairs_other _ _ _ _
        (Ne.symm (get_chain_name_ne_FORWARD fw.id IpVer.v6 Dir.ingress)),
      hfI6]
    simp
  · rw [chainRules_eq_L]
    simp only [chainRulesL_append]
    rw [chainRulesL_eq_nil_of _ _ hoB]
    have e2 : chainRulesL [(FWAAS_DEFAULT_CHAIN, "-j DROP")] (_get_chain_name fw.id IpVer.v6 Dir.egress) = [] := by
      simp [chainRulesL,
        Ne.symm (get_chain_name_ne_default fw.id IpVer.v6 Dir.egress)]
    have e3 : chainRulesL [((_get_chain_name fw.id IpVer.v6 Dir.ingress), _drop_invalid_packets_rule), ((_get_chain_name fw.id IpVer.v6 Dir.ingress), _allow_established_rule),
        ((_get_chain_name fw.id IpVer.v6 Dir.egress), _drop_invalid_packets_rule), ((_get_chain_name fw.id IpVer.v6 Dir.egress), _allow_established_rule)] (_get_chain_name fw.id IpVer.v6 Dir.egress) =
        [_drop_invalid_packets_rule, _allow_established_rule] := by
      simp [chainRulesL, get_chain_name_ne_dir fw.id IpVer.v6]
    rw [e2, e3,
      chainRulesL_pairs_other _ _ _ _ (get_chain_name_ne_dir fw.id IpVer.v6),
      chainRulesL_pairs_same,
      chainRulesL_pairs_other _ _ _ _
        (Ne.symm (get_chain_name_ne_FORWARD fw.id IpVer.v6 Dir.egress)),
      chainRulesL_pairs_other _ _ _ _
        (Ne.symm (get_chain_name_ne_FORWARD fw.id IpVer.v6 Dir.egress)),
      chainRulesL_pairs_other _ _ _ _
        (Ne.symm (get_chain_name_ne_FORWARD fw.id IpVer.v6 Dir.egress)),
      chainRulesL_pairs_other _ _ _ _
        (Ne.symm (get_chain_name_ne_FORWARD fw.id IpVer.v6 Dir.egress)),
      hfE6]
    simp

lemma default_on_fresh (fwid : String) (ports : List String) :
    defaultPolicyOnTarget fwid INTERNAL_DEV_PREF ports freshMgr = .ok
      ⟨defaultOnlyTable INTERNAL_DEV_PREF ports,
       defaultOnlyTable INTERNAL_DEV_PREF ports, "qrouter-1"⟩ := by
  unfold defaultPolicyOnTarget
  dsimp only
  show _add_default_policy_chain_v4v6
      (_remove_default_chains (_remove_chains fwid freshMgr)) >>= _ = _
  rw [remove_chains_eq, remove_default_chains_eq]
  dsimp only [freshMgr]
  rw [remove_chain_not_mem freshTable _ (by
    intro hc
    simp [freshTable] at hc
    exact get_chain_name_ne_FORWARD fwid IpVer.v4 Dir.ingress hc)]
  rw [remove_chain_not_mem freshTable _ (by
    intro hc
    simp [freshTable] at hc
    exact get_chain_name_ne_FORWARD fwid IpVer.v4 Dir.egress hc)]
  rw [remove_chain_not_mem freshTable FWAAS_DEFAULT_CHAIN (by decide)]
  rw [remove_chain_not_mem freshTable _ (by
    intro hc
    simp [freshTable] at hc
    exact get_chain_name_ne_FORWARD fwid IpVer.v6 Dir.ingress hc)]
  rw [remove_chain_not_mem freshTable _ (by
    intro hc
    simp [freshTable] at hc
    exact get_chain_name_ne_FORWARD fwid IpVer.v6 Dir.egress hc)]
  rw [remove_chain_not_mem freshTable FWAAS_DEFAULT_CHAIN (by decide)]
  rw [add_default_policy_eq, ok_bind]
  dsimp only
  have hch : chainsAfterAdd freshTable.chains FWAAS_DEFAULT_CHAIN =
      ["FORWARD", FWAAS_DEFAULT_CHAIN] := by decide
  rw [hch]
  have hrules : freshTable.rules ++ [(FWAAS_DEFAULT_CHAIN, "-j DROP")] =
      [(FWAAS_DEFAULT_CHAIN, "-j DROP")] := by decide
  rw [hrules]
  rw [enable_none_present fwid INTERNAL_DEV_PREF ports
    ⟨⟨["FORWARD", FWAAS_DEFAULT_CHAIN], [(FWAAS_DEFAULT_CHAIN, "-j DROP")]⟩,
     ⟨["FORWARD", FWAAS_DEFAULT_CHAIN], [(FWAAS_DEFAULT_CHAIN, "-j DROP")]⟩,
     "qrouter-1"⟩
    (by
      intro hc
      simp at hc
      rcases hc with hc | hc
      · exact get_chain_name_ne_FORWARD fwid IpVer.v4 Dir.ingress hc
      · exact get_chain_name_ne_default fwid IpVer.v4 Dir.ingress hc)
    (by
      intro hc
      simp at hc
      rcases hc with hc | hc
      · exact get_chain_name_ne_FORWARD fwid IpVer.v4 Dir.egress hc
      · exact get_chain_name_ne_default fwid IpVer.v4 Dir.egress hc)
    (by
      intro hc
      simp at hc
      rcases hc with hc | hc
      · exact get_chain_name_ne_FORWARD fwid IpVer.v6 Dir.ingress hc
      · exact get_chain_name_ne_default fwid IpVer.v6 Dir.ingress hc)
    (by
      intro hc
      simp at hc
      rcases hc with hc | hc
      · exact get_chain_name_ne_FORWARD fwid IpVer.v6 Dir.egress hc
      · exact get_chain_name_ne_default fwid IpVer.v6 Dir.egress hc)
    (by decide) (by decide)]
  rfl

lemma applyDefaultTargets_fresh (fwid : String) (ports : List String) :
    applyDefaultPolicyTargets "legacy" [(freshRi, ports)] fwid =
      .ok [(defaultOnlyRi ports, ports)] := by
  unfold applyDefaultPolicyTargets mapEntries applyOnRi
  have hres : _get_ipt_mgrs_with_if_pref "legacy" freshRi =
      [(.main, INTERNAL_DEV_PREF)] := rfl
  rw [hres]
  unfold applyTargets
  show (defaultPolicyOnTarget fwid INTERNAL_DEV_PREF ports
      (freshRi.getMgr MgrRef.main) >>= _) >>= _ = _
  have hget : freshRi.getMgr MgrRef.main = freshMgr := rfl
  rw [hget, default_on_fresh fwid ports, ok_bind]
  rfl

/-- C2: an admin-down create or update on a fresh target yields, per target,
exactly the default-deny configuration regardless of the firewall's rule
lists: only the `FORWARD` and default-deny chains exist (no per-group chain,
for any group id), the forwarding chain holds exactly the per-port jump
rules into the default-deny chain, and the default-deny chain holds exactly
the drop rule. -/
theorem claim_C2 :
    (∀ (fw : Firewall) (ports : List String) (st : DriverState),
      fw.admin_state_up = false →
      create_firewall_group "legacy" [(freshRi, ports)] fw st =
        .ok ([(defaultOnlyRi ports, ports)], st, [])) ∧
    (∀ (fw : Firewall) (ports : List String) (st : DriverState),
      fw.admin_state_up = false →
      update_firewall_group "legacy" [(freshRi, ports)] fw st =
        .ok ([(defaultOnlyRi ports, ports)], ⟨some fw⟩, [])) ∧
    (∀ (fwid ifPref : String) (ports : List String) (ver : IpVer) (d : Dir),
      _get_chain_name fwid ver d ∉ (defaultOnlyTable ifPref ports).chains) ∧
    (∀ (ifPref : String) (ports : List String),
      (defaultOnlyTable ifPref ports).chainRules "FORWARD" =
        ports.map (fun p => defaultJumpRule "-o" ifPref p) ++
        ports.map (fun p => defaultJumpRule "-i" ifPref p) ∧
      (defaultOnlyTable ifPref ports).chainRules FWAAS_DEFAULT_CHAIN =
        ["-j DROP"]) := by
  have hadp : ∀ (fw : Firewall) (ports : List String) (st : DriverState),
      apply_default_policy "legacy" [(freshRi, ports)] fw st =
        .ok ([(defaultOnlyRi ports, ports)], st, []) := by
    intro fw ports st
    unfold apply_default_policy
    rw [applyDefaultTargets_fresh fw.id ports]
  refine ⟨?_, ?_, ?_, ?_⟩
  · intro fw ports st hadmin
    unfold create_firewall_group
    rw [hadmin]
    simp only [Bool.false_eq_true, if_false]
    exact hadp fw ports st
  · intro fw ports st hadmin
    unfold update_firewall_group
    rw [hadmin]
    simp only [Bool.false_eq_true, if_false]
    rw [hadp fw ports st]
  · intro fwid ifPref ports ver d hc
    simp [defaultOnlyTable] at hc
    rcases hc with hc | hc
    · exact get_chain_name_ne_FORWARD fwid ver d hc
    · exact get_chain_name_ne_default fwid ver d hc
  · intro ifPref ports
    constructor
    · rw [chainRules_eq_L]
      show chainRulesL ([(FWAAS_DEFAULT_CHAIN, "-j DROP")] ++
        List.map (fun p => ("FORWARD", defaultJumpRule "-o" ifPref p)) ports ++
        List.map (fun p => ("FORWARD", defaultJumpRule "-i" ifPref p)) ports)
        "FORWARD" = _
      simp only [chainRulesL_append]
      rw [chainRulesL_pairs_same, chainRulesL_pairs_same]
      have e1 : chainRulesL [(FWAAS_DEFAULT_CHAIN, "-j DROP")] "FORWARD" = []
        := by decide
      rw [e1]
      simp
    · rw [chainRules_eq_L]
      show chainRulesL ([(FWAAS_DEFAULT_CHAIN, "-j DROP")] ++
        List.map (fun p => ("FORWARD", defaultJumpRule "-o" ifPref p)) ports ++
        List.map (fun p => ("FORWARD", defaultJumpRule "-i" ifPref p)) ports)
        FWAAS_DEFAULT_CHAIN = _
      simp only [chainRulesL_append]
      rw [chainRulesL_pairs_other _ _ _ _ (by decide),
        chainRulesL_pairs_other _ _ _ _ (by decide)]
      have e1 : chainRulesL [(FWAAS_DEFAULT_CHAIN, "-j DROP")]
          FWAAS_DEFAULT_CHAIN = ["-j DROP"] := by decide
      rw [e1]
      simp

/-- C2 witness: the admin-down create of `fwAdown` over one fresh target
with one port. -/
theorem claim_C2_witness :
    create_firewall_group "legacy" [(freshRi, ["port1"])] fwAdown ⟨none⟩ =
      .ok ([(defaultOnlyRi ["port1"], ["port1"])], ⟨none⟩, []) :=
  claim_C2.1 fwAdown ["port1"] ⟨none⟩ rfl

/-- C3 witness: the concrete firewall `exCurFw` applied to a fresh target. -/
theorem claim_C3_witness :
    ∃ m', setupOnTarget exCurFw "qr-" ["port1"] freshMgr = .ok m' ∧
      m'.ipv4_filter.chainRules (_get_chain_name exCurFw.id .v4 .ingress) =
        [_drop_invalid_packets_rule, _allow_established_rule] ++
          (exCurFw.ingress_rule_list.filter
            (fun r => r.enabled && r.ip_version == 4)).map convOk ∧
      m'.ipv4_filter.chainRules (_get_chain_name exCurFw.id .v4 .egress) =
        [_drop_invalid_packets_rule, _allow_established_rule] ++
          (exCurFw.egress_rule_list.filter
            (fun r => r.enabled && r.ip_version == 4)).map convOk ∧
      m'.ipv6_filter.chainRules (_get_chain_name exCurFw.id .v6 .ingress) =
        [_drop_invalid_packets_rule, _allow_established_rule] ++
          (exCurFw.ingress_rule_list.filter
            (fun r => r.enabled && r.ip_version == 6)).map convOk ∧
      m'.ipv6_filter.chainRules (_get_chain_name exCurFw.id .v6 .egress) =
        [_drop_invalid_packets_rule, _allow_established_rule] ++
          (exCurFw.egress_rule_list.filter
            (fun r => r.enabled && r.ip_version == 6)).map convOk :=
  claim_C3 exCurFw "qr-" ["port1"] freshMgr (by decide) (by decide)
    (by decide) (by decide)
    (by
      intro r hr _
      simp [exCurFw] at hr
      subst hr
      decide)
    (by
      intro r hr
      simp [exCurFw] at hr
      subst hr
      decide)

end Fwaas
